import Mathlib

/-!
Verification of the ACRecorder telemetry core against its specification.

The development shallowly embeds the Python modules
`src/core/session_monitor.py`, `src/curve_detector.py`,
`src/core/acc_telemetry.py` and `src/core/broadcasting/client.py`.
Machine integers become `Int`/`Nat`; wall-clock instants (`time.time()`)
and steering angles (Python floats compared against thresholds) become
`ℚ`; IEEE-754 payload fields that are only carried around (never used in
control flow) are kept as their raw 32-bit little-endian words (`Nat`);
fallible decode paths (struct.unpack on a short slice raises, the caller
catches and returns None) become `Option`.
-/

namespace ACRecorder

/-! ## Session monitor (`src/core/session_monitor.py`) -/

/-- `SessionStatus` enum of `session_monitor.py`. -/
inductive SessionStatus where
  | unknown
  | off
  | menu
  | replay
  | livePaused
  | liveWaiting
  | liveRacing
deriving DecidableEq, Repr

/-- The `self.config` dict of `ACCSessionMonitor` (the polling interval
`update_interval` only paces the thread and does not enter the state
machine, so it is omitted). -/
structure MonitorConfig where
  minSessionTimeMs : Int
  timeCheckDuration : ℚ
deriving DecidableEq

/-- Default config from `ACCSessionMonitor.__init__`. -/
def MonitorConfig.default : MonitorConfig :=
  { minSessionTimeMs := 100, timeCheckDuration := 2 }

/-- `ACCSessionMonitor._determine_status` (the `session_info` argument is
unused by the source function and is dropped). -/
def determineStatus (cfg : MonitorConfig) (statusStr : String)
    (sessionTimeMs : Int) : SessionStatus :=
  if statusStr = "Off" then .off
  else if statusStr = "Replay" then .replay
  else if statusStr = "Pause" then .livePaused
  else if statusStr = "Live" then
    if sessionTimeMs > cfg.minSessionTimeMs then .liveRacing
    else .liveWaiting
  else .unknown

/-- Mutable state of `ACCSessionMonitor` relevant to race detection.
`startFires`/`endFires` count invocations of the race-started and
race-ended notifications (`_start_race`/`_end_race` reaching their
callback sites).  The `datetime` bookkeeping (`race_started_time`,
`session_type`) and the callback payload dictionaries carry no control
flow and are not modelled. -/
structure MonitorState where
  currentStatus : SessionStatus
  isInRace : Bool
  sessionTimePositiveSince : Option ℚ
  lastSessionTimeMs : Int
  startFires : Nat
  endFires : Nat
deriving DecidableEq

/-- Initial monitor state from `ACCSessionMonitor.__init__`. -/
def MonitorState.initial : MonitorState :=
  { currentStatus := .unknown
    isInRace := false
    sessionTimePositiveSince := none
    lastSessionTimeMs := 0
    startFires := 0
    endFires := 0 }

/-- `ACCSessionMonitor._start_race`: idempotent guard, then marks
`is_in_race` and fires the race-started callback. -/
def startRace (s : MonitorState) : MonitorState :=
  if s.isInRace then s
  else { s with isInRace := true, startFires := s.startFires + 1 }

/-- `ACCSessionMonitor._end_race`: idempotent guard, then fires the
race-ended callback and clears `is_in_race`. -/
def endRace (s : MonitorState) : MonitorState :=
  if s.isInRace then
    { s with isInRace := false, endFires := s.endFires + 1 }
  else s

/-- `ACCSessionMonitor._detect_race_transitions`.  `now` is the value of
`time.time()` observed on this tick. -/
def detectRaceTransitions (cfg : MonitorConfig) (s : MonitorState)
    (newStatus : SessionStatus) (sessionTimeMs : Int) (now : ℚ) :
    MonitorState :=
  let s1 :=
    if newStatus = .liveRacing ∧ s.isInRace = false then
      if sessionTimeMs > cfg.minSessionTimeMs then
        match s.sessionTimePositiveSince with
        | none => { s with sessionTimePositiveSince := some now }
        | some since =>
          if now - since ≥ cfg.timeCheckDuration then startRace s else s
      else { s with sessionTimePositiveSince := none }
    else if s.isInRace = true ∧
        (newStatus = .off ∨ newStatus = .menu ∨ newStatus = .replay) then
      endRace s
    else if s.isInRace = true ∧ sessionTimeMs = 0 ∧
        s.lastSessionTimeMs > 0 then
      endRace s
    else s
  if newStatus ≠ .liveRacing then
    { s1 with sessionTimePositiveSince := none }
  else s1

/-- `ACCSessionMonitor._update_status` (the status-changed callback only
observes the change; only the stored status matters here). -/
def updateStatus (s : MonitorState) (newStatus : SessionStatus) :
    MonitorState :=
  if newStatus ≠ s.currentStatus then { s with currentStatus := newStatus }
  else s

/-- The `(status, current_time_ms)` pair that `_check_session_state`
extracts from a present `session_info` dict. -/
structure TickInfo where
  status : String
  timeMs : Int
  now : ℚ
deriving DecidableEq

/-- `ACCSessionMonitor._check_session_state` for one polling tick on
which `get_session_info()` returned data.  (When it returns `None` the
source classifies `Off` and returns before reaching
`_detect_race_transitions`; that early path is `checkSessionStateNoData`
below.) -/
def checkSessionState (cfg : MonitorConfig) (s : MonitorState)
    (tk : TickInfo) : MonitorState :=
  let newStatus := determineStatus cfg tk.status tk.timeMs
  let s1 := detectRaceTransitions cfg s newStatus tk.timeMs tk.now
  let s2 := updateStatus s1 newStatus
  { s2 with lastSessionTimeMs := tk.timeMs }

/-- `_check_session_state` when `get_session_info()` returns `None`:
classify `Off` and return (no race-transition detection, and
`_last_session_time_ms` is not updated). -/
def checkSessionStateNoData (s : MonitorState) : MonitorState :=
  updateStatus s .off

/-- A run of the monitoring loop over a sequence of data-carrying ticks. -/
def runMonitor (cfg : MonitorConfig) (s : MonitorState)
    (ticks : List TickInfo) : MonitorState :=
  ticks.foldl (checkSessionState cfg) s

/-! ## Curve detector (`src/curve_detector.py`) -/

/-- Direction of a curve; the Python source uses the strings
`'left'`/`'right'` with `None` for straight. -/
inductive CurveDir where
  | left
  | right
deriving DecidableEq, Repr

/-- One entry of `CurveDetector.curves_log`. -/
structure CurveLogEntry where
  curveNumber : Nat
  direction : Option CurveDir
  durationSamples : Nat
  timestamp : Option String
deriving DecidableEq

/-- State of `CurveDetector` (configuration and mutable fields). -/
structure CurveDetector where
  thresholdAngle : ℚ
  minDuration : Nat
  cooldownSamples : Nat
  history : List ℚ
  inCurve : Bool
  curveSamples : Nat
  cooldownCounter : Nat
  currentCurveDirection : Option CurveDir
  totalCurves : Nat
  leftCurves : Nat
  rightCurves : Nat
  curvesLog : List CurveLogEntry
deriving DecidableEq

/-- `CurveDetector.__init__` with its default arguments
(threshold 15°, min duration 2 samples, cooldown 3 samples). -/
def CurveDetector.fresh : CurveDetector :=
  { thresholdAngle := 15
    minDuration := 2
    cooldownSamples := 3
    history := []
    inCurve := false
    curveSamples := 0
    cooldownCounter := 0
    currentCurveDirection := none
    totalCurves := 0
    leftCurves := 0
    rightCurves := 0
    curvesLog := [] }

/-- `CurveDetector._register_curve`. -/
def CurveDetector.registerCurve (cd : CurveDetector)
    (timestamp : Option String) : CurveDetector :=
  let total := cd.totalCurves + 1
  let cd :=
    { cd with
      totalCurves := total
      leftCurves :=
        if cd.currentCurveDirection = some CurveDir.left then cd.leftCurves + 1
        else cd.leftCurves
      rightCurves :=
        if cd.currentCurveDirection = some CurveDir.right then cd.rightCurves + 1
        else cd.rightCurves }
  { cd with
    curvesLog := cd.curvesLog ++
      [{ curveNumber := total
         direction := cd.currentCurveDirection
         durationSamples := cd.curveSamples
         timestamp := timestamp }] }

/-- The dictionary returned by `CurveDetector.update`. -/
structure UpdateResult where
  inCurve : Bool
  curveDirection : Option CurveDir
  curveDetected : Bool
  curveFinished : Bool
  totalCurves : Nat
  leftCurves : Nat
  rightCurves : Nat
  currentSteerAngle : ℚ
deriving DecidableEq

/-- `CurveDetector.update`: one steering-angle sample. -/
def CurveDetector.update (cd : CurveDetector) (steerAngle : ℚ)
    (timestamp : Option String) : CurveDetector × UpdateResult :=
  let h := cd.history ++ [steerAngle]
  let cd := { cd with history := if 10 < h.length then h.tail else h }
  let currentDirection : Option CurveDir :=
    if steerAngle > cd.thresholdAngle then some .right
    else if steerAngle < -cd.thresholdAngle then some .left
    else none
  let (cd, curveDetected, curveFinished) :=
    match currentDirection with
    | some dir =>
      let cd := { cd with cooldownCounter := 0 }
      if cd.inCurve = false then
        ({ cd with
            inCurve := true
            curveSamples := 1
            currentCurveDirection := some dir }, false, false)
      else
        if some dir ≠ cd.currentCurveDirection then
          let fin : Bool := decide (cd.curveSamples ≥ cd.minDuration)
          let cd := if fin then cd.registerCurve timestamp else cd
          ({ cd with
              curveSamples := 1
              currentCurveDirection := some dir },
            false, fin)
        else
          ({ cd with curveSamples := cd.curveSamples + 1 }, false, false)
    | none =>
      if cd.inCurve then
        let cd := { cd with cooldownCounter := cd.cooldownCounter + 1 }
        if cd.cooldownCounter ≥ cd.cooldownSamples then
          let fin : Bool := decide (cd.curveSamples ≥ cd.minDuration)
          let cd := if fin then cd.registerCurve timestamp else cd
          ({ cd with
              inCurve := false
              curveSamples := 0
              currentCurveDirection := none }, fin, fin)
        else (cd, false, false)
      else (cd, false, false)
  (cd,
    { inCurve := cd.inCurve
      curveDirection := cd.currentCurveDirection
      curveDetected := curveDetected
      curveFinished := curveFinished
      totalCurves := cd.totalCurves
      leftCurves := cd.leftCurves
      rightCurves := cd.rightCurves
      currentSteerAngle := steerAngle })

/-- `CurveDetector.reset`. -/
def CurveDetector.reset (cd : CurveDetector) : CurveDetector :=
  { cd with
    history := []
    inCurve := false
    curveSamples := 0
    cooldownCounter := 0
    currentCurveDirection := none
    totalCurves := 0
    leftCurves := 0
    rightCurves := 0
    curvesLog := [] }

/-- Feed a sequence of samples, collecting the per-sample results. -/
def runDetector (cd : CurveDetector) (samples : List (ℚ × Option String)) :
    CurveDetector × List UpdateResult :=
  match samples with
  | [] => (cd, [])
  | (a, ts) :: rest =>
    let (cd1, r) := cd.update a ts
    let (cd2, rs) := runDetector cd1 rest
    (cd2, r :: rs)

/-! ## Shared-memory decoders (`src/core/acc_telemetry.py`)

A buffer is a list of byte values.  `struct.unpack('i', data[o:o+4])`
raises (and the enclosing `try` turns the whole call into `None`) exactly
when the slice holds fewer than 4 bytes, i.e. when `o + 4 > len(data)`;
`readI32`/`readF32w` return `none` in precisely that case.  IEEE-754
fields are kept as their raw little-endian 32-bit words, and the
fixed-width UTF-16LE strings as their raw byte slices (their decode with
`errors='ignore'` plus `rstrip` is a total pure function of the slice and
never raises; likewise the `round(...)` post-processing of float fields
never raises), so neither affects the `Option` structure. -/

/-- Little-endian 32-bit word starting at offset `o`. -/
def leWord (buf : List Nat) (o : Nat) : Nat :=
  buf.getD o 0 + 256 * buf.getD (o+1) 0 + 65536 * buf.getD (o+2) 0 +
    16777216 * buf.getD (o+3) 0

/-- Two's-complement reading of a 32-bit word, as `struct.unpack('i')`. -/
def i32OfWord (u : Nat) : Int :=
  if u % 4294967296 < 2147483648 then ((u % 4294967296 : Nat) : Int)
  else ((u % 4294967296 : Nat) : Int) - 4294967296

/-- `struct.unpack('i', data[o:o+4])`, `None` when the slice is short. -/
def readI32 (buf : List Nat) (o : Nat) : Option Int :=
  if o + 4 ≤ buf.length then some (i32OfWord (leWord buf o)) else none

/-- `struct.unpack('f', data[o:o+4])` kept as the raw word. -/
def readF32w (buf : List Nat) (o : Nat) : Option Nat :=
  if o + 4 ≤ buf.length then some (leWord buf o) else none

/-- The raw bytes of a fixed-width wide-string field (`data[o:o+n]`);
Python slicing is total. -/
def sliceBytes (buf : List Nat) (o n : Nat) : List Nat :=
  (buf.drop o).take n

/-- The `statuses` table of `get_session_info` (`dict.get` default
`'Unknown'`). -/
def statusName (v : Int) : String :=
  if v = 0 then "Off"
  else if v = 1 then "Replay"
  else if v = 2 then "Live"
  else if v = 3 then "Pause"
  else "Unknown"

/-- The `session_types` table of `get_session_info`. -/
def sessionTypeName (v : Int) : String :=
  if v = 0 then "Unknown"
  else if v = 1 then "Practice"
  else if v = 2 then "Qualifying"
  else if v = 3 then "Race"
  else if v = 4 then "Hotlap"
  else if v = 5 then "Time Attack"
  else if v = 6 then "Drift"
  else if v = 7 then "Drag"
  else "Unknown"

/-- The dictionary returned by `ACCTelemetry.get_session_info`. -/
structure SessionInfoDict where
  packetId : Int
  status : String
  sessionType : String
  currentTime : List Nat
  lastTime : List Nat
  bestTime : List Nat
  currentTimeMs : Int
  lastLapTimeMs : Int
  bestLapTimeMs : Int
  completedLaps : Int
  position : Int
  normalizedPosition : Nat
  sessionTimeLeft : Nat
  distanceTraveled : Nat
  isInPit : Bool
  currentSector : Int
  tyreCompound : List Nat
  numberOfLaps : Int

/-- The decode body of `ACCTelemetry.get_session_info` (the `try` block
over the graphics buffer; any failed unpack makes the result `None`). -/
def decodeSessionInfo (buf : List Nat) : Option SessionInfoDict :=
  match readI32 buf 0 with
  | none => none
  | some packetId =>
   match readI32 buf 4 with
   | none => none
   | some status =>
    match readI32 buf 8 with
    | none => none
    | some session =>
     match readI32 buf 132 with
     | none => none
     | some completedLaps =>
      match readI32 buf 136 with
      | none => none
      | some position =>
       match readI32 buf 140 with
       | none => none
       | some iCurrentTime =>
        match readI32 buf 144 with
        | none => none
        | some iLastTime =>
         match readI32 buf 148 with
         | none => none
         | some iBestTime =>
          match readF32w buf 152 with
          | none => none
          | some sessionTimeLeft =>
           match readF32w buf 156 with
           | none => none
           | some distanceTraveled =>
            match readI32 buf 160 with
            | none => none
            | some isInPit =>
             match readI32 buf 164 with
             | none => none
             | some currentSector =>
              match readI32 buf 168 with
              | none => none
              | some _lastSectorTime =>
               match readI32 buf 172 with
               | none => none
               | some numberOfLaps =>
                match readF32w buf 246 with
                | none => none
                | some normalizedPos =>
                 let currentTime := sliceBytes buf 12 30
                 let lastTime := sliceBytes buf 42 30
                 let bestTime := sliceBytes buf 72 30
                 let tyreCompound := sliceBytes buf 176 66
                 some { packetId := packetId
                        status := statusName status
                        sessionType := sessionTypeName session
                        currentTime := currentTime
                        lastTime := lastTime
                        bestTime := bestTime
                        currentTimeMs := iCurrentTime
                        lastLapTimeMs := iLastTime
                        bestLapTimeMs := iBestTime
                        completedLaps := completedLaps
                        position := position
                        normalizedPosition := normalizedPos
                        sessionTimeLeft := sessionTimeLeft
                        distanceTraveled := distanceTraveled
                        isInPit := isInPit != 0
                        currentSector := currentSector
                        tyreCompound := tyreCompound
                        numberOfLaps := numberOfLaps }

/-- `ACCTelemetry.get_session_info`: `None` when not connected, else the
decode of the (re-)read graphics buffer; a decode failure is caught and
also yields `None`. -/
def getSessionInfo (connected : Bool) (buf : List Nat) :
    Option SessionInfoDict :=
  if connected then decodeSessionInfo buf else none

/-- The dictionary returned by `ACCTelemetry.get_player_telemetry`
(float fields as raw words; the derived `locked` booleans and the
`round` calls are pure functions of these words). -/
structure PlayerTelemetryDict where
  packetId : Int
  gas : Nat
  brake : Nat
  fuel : Nat
  gear : Int
  rpms : Int
  steerAngle : Nat
  speedKmh : Nat
  velocityX : Nat
  velocityY : Nat
  velocityZ : Nat
  accgX : Nat
  accgY : Nat
  accgZ : Nat
  wheelSlipFL : Nat
  wheelSlipFR : Nat
  wheelSlipRL : Nat
  wheelSlipRR : Nat
  wheelLoadFL : Nat
  wheelLoadFR : Nat
  wheelLoadRL : Nat
  wheelLoadRR : Nat
  tyrePressureFL : Nat
  tyrePressureFR : Nat
  tyrePressureRL : Nat
  tyrePressureRR : Nat
  wheelAngularFL : Nat
  wheelAngularFR : Nat
  wheelAngularRL : Nat
  wheelAngularRR : Nat
  tyreWearFL : Nat
  tyreWearFR : Nat
  tyreWearRL : Nat
  tyreWearRR : Nat
  tyreTempFL : Nat
  tyreTempFR : Nat
  tyreTempRL : Nat
  tyreTempRR : Nat
  suspTravelFL : Nat
  suspTravelFR : Nat
  suspTravelRL : Nat
  suspTravelRR : Nat
  tc : Nat
  heading : Nat
  pitch : Nat
  roll : Nat
  absLevel : Nat
  turboBoost : Nat
  airDensity : Nat
  airTemp : Nat
  roadTemp : Nat
  brakeTempFL : Nat
  brakeTempFR : Nat
  brakeTempRL : Nat
  brakeTempRR : Nat
  clutch : Nat

/-- The decode body of `ACCTelemetry.get_player_telemetry` over the
physics buffer, with the exact offsets of the pack(4) struct walk
(skipped fields advance the offset only). -/
def decodePlayerTelemetry (buf : List Nat) : Option PlayerTelemetryDict :=
  match readI32 buf 0 with
  | none => none
  | some packetId =>
   match readF32w buf 4 with
   | none => none
   | some gas =>
    match readF32w buf 8 with
    | none => none
    | some brake =>
     match readF32w buf 12 with
     | none => none
     | some fuel =>
      match readI32 buf 16 with
      | none => none
      | some gear =>
       match readI32 buf 20 with
       | none => none
       | some rpms =>
        match readF32w buf 24 with
        | none => none
        | some steerAngle =>
         match readF32w buf 28 with
         | none => none
         | some speedKmh =>
          match readF32w buf 32 with
          | none => none
          | some velocityX =>
           match readF32w buf 36 with
           | none => none
           | some velocityY =>
            match readF32w buf 40 with
            | none => none
            | some velocityZ =>
             match readF32w buf 44 with
             | none => none
             | some accgX =>
              match readF32w buf 48 with
              | none => none
              | some accgY =>
               match readF32w buf 52 with
               | none => none
               | some accgZ =>
                match readF32w buf 56 with
                | none => none
                | some wheelSlipFL =>
                 match readF32w buf 60 with
                 | none => none
                 | some wheelSlipFR =>
                  match readF32w buf 64 with
                  | none => none
                  | some wheelSlipRL =>
                   match readF32w buf 68 with
                   | none => none
                   | some wheelSlipRR =>
                    match readF32w buf 72 with
                    | none => none
                    | some wheelLoadFL =>
                     match readF32w buf 76 with
                     | none => none
                     | some wheelLoadFR =>
                      match readF32w buf 80 with
                      | none => none
                      | some wheelLoadRL =>
                       match readF32w buf 84 with
                       | none => none
                       | some wheelLoadRR =>
                        match readF32w buf 88 with
                        | none => none
                        | some tyrePressureFL =>
                         match readF32w buf 92 with
                         | none => none
                         | some tyrePressureFR =>
                          match readF32w buf 96 with
                          | none => none
                          | some tyrePressureRL =>
                           match readF32w buf 100 with
                           | none => none
                           | some tyrePressureRR =>
                            match readF32w buf 104 with
                            | none => none
                            | some wheelAngularFL =>
                             match readF32w buf 108 with
                             | none => none
                             | some wheelAngularFR =>
                              match readF32w buf 112 with
                              | none => none
                              | some wheelAngularRL =>
                               match readF32w buf 116 with
                               | none => none
                               | some wheelAngularRR =>
                                match readF32w buf 120 with
                                | none => none
                                | some tyreWearFL =>
                                 match readF32w buf 124 with
                                 | none => none
                                 | some tyreWearFR =>
                                  match readF32w buf 128 with
                                  | none => none
                                  | some tyreWearRL =>
                                   match readF32w buf 132 with
                                   | none => none
                                   | some tyreWearRR =>
                                    match readF32w buf 152 with
                                    | none => none
                                    | some tyreTempFL =>
                                     match readF32w buf 156 with
                                     | none => none
                                     | some tyreTempFR =>
                                      match readF32w buf 160 with
                                      | none => none
                                      | some tyreTempRL =>
                                       match readF32w buf 164 with
                                       | none => none
                                       | some tyreTempRR =>
                                        match readF32w buf 184 with
                                        | none => none
                                        | some suspTravelFL =>
                                         match readF32w buf 188 with
                                         | none => none
                                         | some suspTravelFR =>
                                          match readF32w buf 192 with
                                          | none => none
                                          | some suspTravelRL =>
                                           match readF32w buf 196 with
                                           | none => none
                                           | some suspTravelRR =>
                                            match readF32w buf 204 with
                                            | none => none
                                            | some tc =>
                                             match readF32w buf 208 with
                                             | none => none
                                             | some heading =>
                                              match readF32w buf 212 with
                                              | none => none
                                              | some pitch =>
                                               match readF32w buf 216 with
                                               | none => none
                                               | some roll =>
                                                match readF32w buf 252 with
                                                | none => none
                                                | some absLevel =>
                                                 match readF32w buf 276 with
                                                 | none => none
                                                 | some turboBoost =>
                                                  match readF32w buf 284 with
                                                  | none => none
                                                  | some airDensity =>
                                                   match readF32w buf 288 with
                                                   | none => none
                                                   | some airTemp =>
                                                    match readF32w buf 292 with
                                                    | none => none
                                                    | some roadTemp =>
                                                     match readF32w buf 344 with
                                                     | none => none
                                                     | some brakeTempFL =>
                                                      match readF32w buf 348 with
                                                      | none => none
                                                      | some brakeTempFR =>
                                                       match readF32w buf 352 with
                                                       | none => none
                                                       | some brakeTempRL =>
                                                        match readF32w buf 356 with
                                                        | none => none
                                                        | some brakeTempRR =>
                                                         match readF32w buf 360 with
                                                         | none => none
                                                         | some clutch =>
                                                          some (PlayerTelemetryDict.mk
                                                            packetId gas brake fuel gear rpms steerAngle speedKmh velocityX velocityY velocityZ accgX accgY accgZ wheelSlipFL wheelSlipFR wheelSlipRL wheelSlipRR wheelLoadFL wheelLoadFR wheelLoadRL wheelLoadRR tyrePressureFL tyrePressureFR tyrePressureRL tyrePressureRR wheelAngularFL wheelAngularFR wheelAngularRL wheelAngularRR tyreWearFL tyreWearFR tyreWearRL tyreWearRR tyreTempFL tyreTempFR tyreTempRL tyreTempRR suspTravelFL suspTravelFR suspTravelRL suspTravelRR tc heading pitch roll absLevel turboBoost airDensity airTemp roadTemp brakeTempFL brakeTempFR brakeTempRL brakeTempRR clutch)

/-- `ACCTelemetry.get_player_telemetry`. -/
def getPlayerTelemetry (connected : Bool) (buf : List Nat) :
    Option PlayerTelemetryDict :=
  if connected then decodePlayerTelemetry buf else none

/-- The dictionary returned by `ACCTelemetry.get_car_info` (the
`player_name` join-and-strip of the two name fields is a pure function
of the two raw slices kept here). -/
structure CarInfoDict where
  smVersion : List Nat
  acVersion : List Nat
  carModel : List Nat
  trackName : List Nat
  playerFirstName : List Nat
  playerSurname : List Nat
  playerNick : List Nat
  maxRpm : Int
  maxFuel : Nat
  numSessions : Int
  numCars : Int
  sectorCount : Int

/-- The decode body of `ACCTelemetry.get_car_info` over the static
buffer. -/
def decodeCarInfo (buf : List Nat) : Option CarInfoDict :=
  match readI32 buf 60 with
  | none => none
  | some numSessions =>
   match readI32 buf 64 with
   | none => none
   | some numCars =>
    match readI32 buf 398 with
    | none => none
    | some sectorCount =>
     match readI32 buf 410 with
     | none => none
     | some maxRpm =>
      match readF32w buf 414 with
      | none => none
      | some maxFuel =>
       let smVersion := sliceBytes buf 0 30
       let acVersion := sliceBytes buf 30 30
       let carModel := sliceBytes buf 68 66
       let track := sliceBytes buf 134 66
       let playerFirstName := sliceBytes buf 200 66
       let playerSurname := sliceBytes buf 266 66
       let playerNick := sliceBytes buf 332 66
       some { smVersion := smVersion
              acVersion := acVersion
              carModel := carModel
              trackName := track
              playerFirstName := playerFirstName
              playerSurname := playerSurname
              playerNick := playerNick
              maxRpm := maxRpm
              maxFuel := maxFuel
              numSessions := numSessions
              numCars := numCars
              sectorCount := sectorCount }

/-- `ACCTelemetry.get_car_info`. -/
def getCarInfo (connected : Bool) (buf : List Nat) : Option CarInfoDict :=
  if connected then decodeCarInfo buf else none

/-! ## Broadcasting client (`src/core/broadcasting/client.py`)

Inbound datagrams are byte lists read through a cursor that mirrors
`BytesIO`: `struct.unpack` on a `read(n)` result raises (the receive
loop catches, logs and continues, leaving the state unmodified, since
every state write in the processors happens after all reads) exactly
when fewer than `n` bytes remain.  Variable-length protocol strings are
UTF-8 payload bytes; `str.encode('utf-8')`/`bytes.decode('utf-8')` is a
bijection between the strings and their byte lists, so strings that are
only carried (not concatenated) are kept as byte lists. -/

/-- `struct.unpack('B', reader.read(1))`. -/
def readU8 (buf : List Nat) (o : Nat) : Option Nat :=
  if o + 1 ≤ buf.length then some (buf.getD o 0) else none

/-- `struct.unpack('H', reader.read(2))` (little-endian). -/
def readU16 (buf : List Nat) (o : Nat) : Option Nat :=
  if o + 2 ≤ buf.length then some (buf.getD o 0 + 256 * buf.getD (o+1) 0)
  else none

/-- `struct.unpack('b', reader.read(1))` (signed). -/
def readI8 (buf : List Nat) (o : Nat) : Option Int :=
  if o + 1 ≤ buf.length then
    some (if buf.getD o 0 % 256 < 128 then ((buf.getD o 0 % 256 : Nat) : Int)
          else ((buf.getD o 0 % 256 : Nat) : Int) - 256)
  else none

/-- The dictionary produced by `ACCBroadcastingClient._read_lap_info`. -/
structure LapInfoDict where
  lapTimeMs : Int
  splits : List Int
  isInvalid : Bool
  isValidForBest : Bool
  isOutLap : Bool
  isInLap : Bool
deriving DecidableEq

/-- `ACCBroadcastingClient._read_lap_info` at cursor `o` (consumes 18
bytes: lap time, three sector splits, two flag bytes). -/
def readLapInfo (buf : List Nat) (o : Nat) : Option LapInfoDict :=
  match readI32 buf o with
  | none => none
  | some lapTimeMs =>
   match readI32 buf (o+4) with
   | none => none
   | some split0 =>
    match readI32 buf (o+8) with
    | none => none
    | some split1 =>
     match readI32 buf (o+12) with
     | none => none
     | some split2 =>
      match readU8 buf (o+16) with
      | none => none
      | some isInvalid =>
       match readU8 buf (o+17) with
       | none => none
       | some isValidForBest =>
        some { lapTimeMs := lapTimeMs
               splits := [split0, split1, split2]
               isInvalid := isInvalid != 0
               isValidForBest := isValidForBest != 0
               isOutLap := (isInvalid >>> 0) % 2 != 0
               isInLap := (isInvalid >>> 1) % 2 != 0 }

/-- The per-car dictionary stored into `self.realtime_data[car_index]`
by `_process_realtime_car_update` (float fields as raw words). -/
structure RTCarDict where
  driverIndex : Nat
  driverCount : Nat
  gear : Int
  worldPosX : Nat
  worldPosY : Nat
  yaw : Nat
  carLocation : Nat
  kmh : Nat
  position : Nat
  cupPosition : Nat
  trackPosition : Nat
  splinePosition : Nat
  laps : Nat
  delta : Int
  bestSessionLap : LapInfoDict
  lastLap : LapInfoDict
  currentLap : LapInfoDict
deriving DecidableEq

/-- The driver dictionaries built by `_process_entry_list_car` (each
always carries a `short_name` key). -/
structure DriverDict where
  firstName : String
  lastName : String
  shortName : String
  category : Nat
  nationality : Nat
deriving DecidableEq

/-- The per-car dictionary stored into `self.entry_list[car_index]` by
`_process_entry_list_car`. -/
structure EntryDict where
  carModelType : Nat
  teamName : String
  raceNumber : Int
  cupCategory : Nat
  currentDriverIndex : Nat
  nationality : Nat
  drivers : List DriverDict
deriving DecidableEq

/-- The dictionary stored into `self.track_data` by
`_process_track_data`. -/
structure TrackDataDict where
  trackName : String
  trackId : Int
  trackMeters : Int
  cameraSets : List String
  hudPages : List String
deriving DecidableEq

/-- Python-dict semantics keyed by car index: assignment replaces the
value of an existing key in place, otherwise appends. -/
def dictInsert {α : Type} (k : Nat) (v : α) (m : List (Nat × α)) :
    List (Nat × α) :=
  if m.any (fun p => decide (p.1 = k)) then
    m.map (fun p => if p.1 = k then (k, v) else p)
  else m ++ [(k, v)]

/-- Python-dict key lookup (`d[k]` / `k in d`): the keys of a dict are
unique, so first-match lookup is exact. -/
def dictLookup {α : Type} (k : Nat) : List (Nat × α) → Option α
  | [] => none
  | p :: rest => if p.1 = k then some p.2 else dictLookup k rest

/-- The mutable maps of `ACCBroadcastingClient` (`session_info` and
`track_data` start empty and are replaced wholesale by their
processors; only their identity matters to the claims below). -/
structure ClientState where
  entryList : List (Nat × EntryDict)
  realtimeData : List (Nat × RTCarDict)
  sessionInfo : Option (List Nat)
  trackData : Option TrackDataDict
deriving DecidableEq

/-- Parsing part of `_process_realtime_car_update`: all reads happen
before any state write, at the fixed cursor offsets following the tag
byte (`data[0]`). -/
def parseRealtimeCarUpdate (data : List Nat) : Option (Nat × RTCarDict) :=
  match readU16 data 1 with
  | none => none
  | some carIndex =>
   match readU16 data 3 with
   | none => none
   | some driverIndex =>
    match readU8 data 5 with
    | none => none
    | some driverCount =>
     match readI8 data 6 with
     | none => none
     | some gear =>
      match readF32w data 7 with
      | none => none
      | some worldPosX =>
       match readF32w data 11 with
       | none => none
       | some worldPosY =>
        match readF32w data 15 with
        | none => none
        | some yaw =>
         match readU8 data 19 with
         | none => none
         | some carLocation =>
          match readU16 data 20 with
          | none => none
          | some kmh =>
           match readU16 data 22 with
           | none => none
           | some position =>
            match readU16 data 24 with
            | none => none
            | some cupPosition =>
             match readU16 data 26 with
             | none => none
             | some trackPosition =>
              match readF32w data 28 with
              | none => none
              | some splinePosition =>
               match readU16 data 32 with
               | none => none
               | some laps =>
                match readI32 data 34 with
                | none => none
                | some delta =>
                 match readLapInfo data 38 with
                 | none => none
                 | some bestSessionLap =>
                  match readLapInfo data 56 with
                  | none => none
                  | some lastLap =>
                   match readLapInfo data 74 with
                   | none => none
                   | some currentLap =>
                    some (carIndex,
                      { driverIndex := driverIndex
                        driverCount := driverCount
                        gear := gear
                        worldPosX := worldPosX
                        worldPosY := worldPosY
                        yaw := yaw
                        carLocation := carLocation
                        kmh := kmh
                        position := position
                        cupPosition := cupPosition
                        trackPosition := trackPosition
                        splinePosition := splinePosition
                        laps := laps
                        delta := delta
                        bestSessionLap := bestSessionLap
                        lastLap := lastLap
                        currentLap := currentLap })

/-- `ACCBroadcastingClient._process_realtime_car_update`: on success the
parsed record fully replaces `realtime_data[car_index]`; a short
datagram raises before any write, the receive loop catches and the state
is unchanged. -/
def processRealtimeCarUpdate (st : ClientState) (data : List Nat) :
    ClientState :=
  match parseRealtimeCarUpdate data with
  | none => st
  | some (carIndex, rec) =>
    { st with realtimeData := dictInsert carIndex rec st.realtimeData }

/-- Python `str.strip()` with no argument: remove leading and trailing
whitespace, written structurally over the underlying character list. -/
def pyStrip (s : String) : String :=
  ⟨((s.data.dropWhile Char.isWhitespace).reverse.dropWhile
      Char.isWhitespace).reverse⟩

/-- The driver-name resolution inside `get_standings`: `"Unknown"` when
`driver_index` is out of range; else first+last stripped; else the
`short_name` value (the `'Unknown'` default of `dict.get` is dead
because the key always exists). -/
def resolveDriverName (entry : EntryDict) (rt : RTCarDict) : String :=
  match entry.drivers.get? rt.driverIndex with
  | none => "Unknown"
  | some d =>
    let name := pyStrip (d.firstName ++ " " ++ d.lastName)
    if name = "" then d.shortName else name

/-- One element of the list returned by `get_standings`. -/
structure StandingEntry where
  position : Nat
  carIndex : Nat
  carNumber : Int
  driverName : String
  teamName : String
  carModel : Nat
  laps : Nat
  delta : Int
  bestSessionLap : LapInfoDict
  lastLap : LapInfoDict
  currentLap : LapInfoDict
  location : Nat
deriving DecidableEq

/-- The record appended for one joined car inside `get_standings`. -/
def buildStanding (carIndex : Nat) (entry : EntryDict) (rt : RTCarDict) :
    StandingEntry :=
  { position := rt.position
    carIndex := carIndex
    carNumber := entry.raceNumber
    driverName := resolveDriverName entry rt
    teamName := entry.teamName
    carModel := entry.carModelType
    laps := rt.laps
    delta := rt.delta
    bestSessionLap := rt.bestSessionLap
    lastLap := rt.lastLap
    currentLap := rt.currentLap
    location := rt.carLocation }

/-- The pre-sort loop of `get_standings`: iterate the realtime map in
insertion order, skip car indices absent from the entry map. -/
def joinStandings (entryList : List (Nat × EntryDict))
    (realtimeData : List (Nat × RTCarDict)) : List StandingEntry :=
  realtimeData.filterMap (fun p =>
    match dictLookup p.1 entryList with
    | none => none
    | some entry => some (buildStanding p.1 entry p.2))

/-- `ACCBroadcastingClient.get_standings`: join, then
`standings.sort(key=lambda x: x['position'])` (Python's stable ascending
sort). -/
def get_standings (entryList : List (Nat × EntryDict))
    (realtimeData : List (Nat × RTCarDict)) : List StandingEntry :=
  (joinStandings entryList realtimeData).mergeSort
    (fun a b => a.position ≤ b.position)

/-- `OutboundMessageTypes.REGISTER_COMMAND_APPLICATION`
(`protocol.py`). -/
def REGISTER_COMMAND_APPLICATION : Nat := 1

/-- `ACCBroadcastingClient.BROADCASTING_PROTOCOL_VERSION`. -/
def BROADCASTING_PROTOCOL_VERSION : Nat := 4

/-- `struct.pack('i', x)`: the four little-endian bytes of the 32-bit
two's complement of `x`. -/
def int32LEbytes (x : Int) : List Nat :=
  let u := (x % 4294967296).toNat
  [u % 256, u / 256 % 256, u / 65536 % 256, u / 16777216 % 256]

/-- `ACCBroadcastingClient._send_register_command`: the datagram bytes
written into the `BytesIO` buffer, in order: tag, protocol version,
length-prefixed display name, length-prefixed connection password, the
4-byte little-endian update interval, length-prefixed command password.
(`struct.pack('B', len(s))` requires each byte-length ≤ 255.) -/
def encodeRegisterCommand (displayName : List Nat) (password : List Nat)
    (updateIntervalMs : Int) (commandPassword : List Nat) : List Nat :=
  [REGISTER_COMMAND_APPLICATION] ++ [BROADCASTING_PROTOCOL_VERSION] ++
    [displayName.length] ++ displayName ++
    [password.length] ++ password ++
    int32LEbytes updateIntervalMs ++
    [commandPassword.length] ++ commandPassword

/-- A decoded Register command. -/
structure RegisterCmd where
  tag : Nat
  protocolVersion : Nat
  displayName : List Nat
  connectionPassword : List Nat
  updateIntervalMs : Int
  commandPassword : List Nat
deriving DecidableEq

/-- Length-prefixed string read: one length byte, then that many bytes;
returns the payload and the cursor after it. -/
def readStrB (buf : List Nat) (o : Nat) : Option (List Nat × Nat) :=
  match readU8 buf o with
  | none => none
  | some n =>
    if o + 1 + n ≤ buf.length then some (sliceBytes buf (o+1) n, o + 1 + n)
    else none

/-- Modelled from the spec: the repository has no inbound decoder for
its own Register command (only the simulator's server reads it), so this
decoder follows the spec's layout for outbound messages — one leading
tag byte, then payload fields in fixed order, strings as one length byte
followed by UTF-8 bytes, the interval as a 4-byte little-endian
integer. -/
def decodeRegisterCommand (data : List Nat) : Option RegisterCmd :=
  match readU8 data 0 with
  | none => none
  | some tag =>
   match readU8 data 1 with
   | none => none
   | some ver =>
    match readStrB data 2 with
    | none => none
    | some (displayName, o1) =>
     match readStrB data o1 with
     | none => none
     | some (password, o2) =>
      match readI32 data o2 with
      | none => none
      | some interval =>
       match readStrB data (o2 + 4) with
       | none => none
       | some (commandPassword, _) =>
        some { tag := tag
               protocolVersion := ver
               displayName := displayName
               connectionPassword := password
               updateIntervalMs := interval
               commandPassword := commandPassword }

/-- The claimed driver-name fallback chain, rendered from the spec's
words "first+last name → short name → Unknown": each link falls through
to the next when its value is empty or unavailable, ending in
"Unknown". -/
def chainNameSpec (entry : EntryDict) (rt : RTCarDict) : String :=
  match entry.drivers.get? rt.driverIndex with
  | none => "Unknown"
  | some d =>
    if pyStrip (d.firstName ++ " " ++ d.lastName) ≠ "" then
      pyStrip (d.firstName ++ " " ++ d.lastName)
    else if d.shortName ≠ "" then d.shortName
    else "Unknown"

/-- The fallback chain the code actually implements: first+last name
when nonempty after stripping, else the driver's `short_name` even when
it is empty; "Unknown" only when `driver_index` is out of range. -/
def chainNameAmended (entry : EntryDict) (rt : RTCarDict) : String :=
  match entry.drivers.get? rt.driverIndex with
  | none => "Unknown"
  | some d =>
    if pyStrip (d.firstName ++ " " ++ d.lastName) ≠ "" then
      pyStrip (d.firstName ++ " " ++ d.lastName)
    else d.shortName

/-- An all-zero lap-info record (decoded from zero bytes). -/
def lapInfoZero : LapInfoDict :=
  { lapTimeMs := 0, splits := [0, 0, 0], isInvalid := false
    isValidForBest := false, isOutLap := false, isInLap := false }

/-- A realtime record whose current driver is index 0, race position 1. -/
def rtCarZero : RTCarDict :=
  { driverIndex := 0, driverCount := 1, gear := 0, worldPosX := 0
    worldPosY := 0, yaw := 0, carLocation := 0, kmh := 0, position := 1
    cupPosition := 0, trackPosition := 0, splinePosition := 0, laps := 0
    delta := 0, bestSessionLap := lapInfoZero, lastLap := lapInfoZero
    currentLap := lapInfoZero }

/-- An entry whose single driver has empty first, last and short name. -/
def entryEmptyNames : EntryDict :=
  { carModelType := 0, teamName := "", raceNumber := 1, cupCategory := 0
    currentDriverIndex := 0, nationality := 0
    drivers := [{ firstName := "", lastName := "", shortName := ""
                  category := 0, nationality := 0 }] }

/-! ## Theorems -/

/-! ### Decoder failure behaviour (C1) -/

theorem decodeSessionInfo_short (buf : List Nat) (h : buf.length < 250) :
    decodeSessionInfo buf = none := by
  unfold decodeSessionInfo
  repeat' split
  all_goals try rfl
  all_goals rename_i heq
  all_goals simp only [readI32, readF32w] at heq
  all_goals split at heq
  all_goals first | (exfalso; omega) | simp at heq

theorem decodePlayerTelemetry_short (buf : List Nat)
    (h : buf.length < 364) : decodePlayerTelemetry buf = none := by
  unfold decodePlayerTelemetry
  repeat' split
  all_goals try rfl
  all_goals rename_i heq
  all_goals simp only [readI32, readF32w] at heq
  all_goals split at heq
  all_goals first | (exfalso; omega) | simp at heq

theorem decodeCarInfo_short (buf : List Nat) (h : buf.length < 418) :
    decodeCarInfo buf = none := by
  unfold decodeCarInfo
  repeat' split
  all_goals try rfl
  all_goals rename_i heq
  all_goals simp only [readI32, readF32w] at heq
  all_goals split at heq
  all_goals first | (exfalso; omega) | simp at heq

/-- C1 (counterexample): a buffer one byte short of the minimum makes
each decode operation return `None` — the very value that is also the
"no data available" (not connected) result — so the failure is *not* a
distinct, named `BufferTooShort` kind as the claim states. -/
theorem claim_C1_counterexample :
    getSessionInfo true (List.replicate 249 0) =
      getSessionInfo false (List.replicate 249 0) ∧
    getPlayerTelemetry true (List.replicate 363 0) =
      getPlayerTelemetry false (List.replicate 363 0) ∧
    getCarInfo true (List.replicate 417 0) =
      getCarInfo false (List.replicate 417 0) := by
  refine ⟨?_, ?_, ?_⟩ <;>
    simp only [getSessionInfo, getPlayerTelemetry, getCarInfo, if_true,
      if_false, Bool.false_eq_true, ite_false, ite_true]
  · exact decodeSessionInfo_short _ (by simp only [List.length_replicate]; omega)
  · exact decodePlayerTelemetry_short _ (by simp only [List.length_replicate]; omega)
  · exact decodeCarInfo_short _ (by simp only [List.length_replicate]; omega)

/-- C1 (amended): for every physics/session/static buffer shorter than
the minimum required by the fixed offset table, the corresponding decode
operation returns `None` — never a partial or garbage snapshot — and,
whatever the connection flag, that `None` is the same value as the "no
data available" result: the code has no distinct `BufferTooShort`
failure kind. -/
theorem claim_C1 (connected : Bool)
    (physicsBuf sessionBuf staticBuf : List Nat)
    (hp : physicsBuf.length < 364) (hs : sessionBuf.length < 250)
    (hc : staticBuf.length < 418) :
    getPlayerTelemetry connected physicsBuf = none ∧
    getSessionInfo connected sessionBuf = none ∧
    getCarInfo connected staticBuf = none := by
  refine ⟨?_, ?_, ?_⟩ <;> cases connected <;>
    simp only [getSessionInfo, getPlayerTelemetry, getCarInfo,
      Bool.false_eq_true, ite_false, ite_true, if_true, if_false]
  · exact decodePlayerTelemetry_short _ hp
  · exact decodeSessionInfo_short _ hs
  · exact decodeCarInfo_short _ hc

theorem claim_C1_witness :
    (List.replicate 363 (0 : Nat)).length < 364 ∧
    (List.replicate 249 (0 : Nat)).length < 250 ∧
    (List.replicate 417 (0 : Nat)).length < 418 ∧
    getPlayerTelemetry true (List.replicate 363 0) = none ∧
    getSessionInfo true (List.replicate 249 0) = none ∧
    getCarInfo true (List.replicate 417 0) = none := by
  have hl : ∀ n : Nat, (List.replicate n (0 : Nat)).length = n := fun n =>
    List.length_replicate n 0
  have h := claim_C1 true (List.replicate 363 0) (List.replicate 249 0)
    (List.replicate 417 0) (by rw [hl]; omega) (by rw [hl]; omega)
    (by rw [hl]; omega)
  exact ⟨by rw [hl]; omega, by rw [hl]; omega, by rw [hl]; omega,
    h.1, h.2.1, h.2.2⟩

/-! ### Session classification (C2) -/

/-- C2: session classification is a pure function of the status string
and the session time: `'Off'`→Off, `'Replay'`→Replay,
`'Pause'`→LivePaused, `'Live'` at or below the minimum threshold
→LiveWaiting, `'Live'` above it →LiveRacing, anything else →Unknown;
in particular `("Live", 0)`→LiveWaiting, `("Live", 150)` with threshold
100→LiveRacing, and `("Off", t)`→Off for every `t`. -/
theorem claim_C2 (cfg : MonitorConfig) (str : String) (t : Int) :
    determineStatus cfg "Off" t = .off ∧
    determineStatus cfg "Replay" t = .replay ∧
    determineStatus cfg "Pause" t = .livePaused ∧
    (t ≤ cfg.minSessionTimeMs → determineStatus cfg "Live" t = .liveWaiting) ∧
    (cfg.minSessionTimeMs < t → determineStatus cfg "Live" t = .liveRacing) ∧
    (str ≠ "Off" → str ≠ "Replay" → str ≠ "Pause" → str ≠ "Live" →
      determineStatus cfg str t = .unknown) ∧
    determineStatus MonitorConfig.default "Live" 0 = .liveWaiting ∧
    determineStatus { cfg with minSessionTimeMs := 100 } "Live" 150 =
      .liveRacing := by
  refine ⟨rfl, rfl, rfl, fun h => ?_, fun h => ?_, fun h1 h2 h3 h4 => ?_,
    by decide, ?_⟩
  · simp [determineStatus]; omega
  · simp [determineStatus]; omega
  · simp [determineStatus, h1, h2, h3, h4]
  · simp [determineStatus]

theorem claim_C2_witness :
    determineStatus MonitorConfig.default "Live" 42 = .liveWaiting ∧
    determineStatus MonitorConfig.default "Live" 150 = .liveRacing ∧
    determineStatus MonitorConfig.default "Testing" 7 = .unknown :=
  ⟨(claim_C2 MonitorConfig.default "Testing" 42).2.2.2.1 (by decide),
   (claim_C2 MonitorConfig.default "Testing" 150).2.2.2.2.1 (by decide),
   (claim_C2 MonitorConfig.default "Testing" 7).2.2.2.2.2.1 (by decide)
     (by decide) (by decide) (by decide)⟩

/-! ### Curve detector on alternating samples (C5) -/

/-- C5 (counterexample): a strictly alternating +20°/−20° sample
sequence fed to a fresh `CurveDetector` closes *no* curve at all — each
single-sample run is below the minimum duration of 2 — contradicting the
claim that such a sequence yields two closed curves. -/
theorem claim_C5_counterexample :
    (runDetector CurveDetector.fresh
      [(20, none), (-20, none), (20, none), (-20, none), (20, none),
       (-20, none)]).1.totalCurves = 0 ∧
    (runDetector CurveDetector.fresh
      [(20, none), (-20, none), (20, none), (-20, none), (20, none),
       (-20, none)]).1.curvesLog = [] := by
  decide

/-- C5 (amended): feeding a fresh `CurveDetector` (threshold 15°,
min duration 2, cooldown 3) alternating +20°/−20° samples where each
direction is held for the minimum duration of 2 samples before the sign
flips — e.g. `+20, +20, −20, −20, +20` — yields two closed curves, one
right then one left, both closed via the direction-change branch
(`curve_finished` without `curve_detected`) and not via the cooldown
branch; a strictly alternating single-sample sequence closes none. -/
theorem claim_C5 :
    (runDetector CurveDetector.fresh
      [(20, none), (20, none), (-20, none), (-20, none),
       (20, none)]).1.totalCurves = 2 ∧
    (runDetector CurveDetector.fresh
      [(20, none), (20, none), (-20, none), (-20, none),
       (20, none)]).1.rightCurves = 1 ∧
    (runDetector CurveDetector.fresh
      [(20, none), (20, none), (-20, none), (-20, none),
       (20, none)]).1.leftCurves = 1 ∧
    (runDetector CurveDetector.fresh
      [(20, none), (20, none), (-20, none), (-20, none),
       (20, none)]).1.curvesLog.map (fun e => e.direction) =
      [some CurveDir.right, some CurveDir.left] ∧
    (runDetector CurveDetector.fresh
      [(20, none), (20, none), (-20, none), (-20, none),
       (20, none)]).2.map (fun u => (u.curveFinished, u.curveDetected)) =
      [(false, false), (false, false), (true, false), (false, false),
       (true, false)] ∧
    (runDetector CurveDetector.fresh
      [(20, none), (-20, none), (20, none), (-20, none), (20, none),
       (-20, none)]).1.totalCurves = 0 := by
  decide

/-! ### Race-end condition (C4, C10) -/

theorem determineStatus_ne_menu (cfg : MonitorConfig) (str : String)
    (t : Int) : determineStatus cfg str t ≠ .menu := by
  unfold determineStatus
  split_ifs <;> simp

theorem updateStatus_endFires (s : MonitorState) (ns : SessionStatus) :
    (updateStatus s ns).endFires = s.endFires := by
  unfold updateStatus
  split <;> rfl

theorem checkState_endFires_eq (cfg : MonitorConfig) (s : MonitorState)
    (tk : TickInfo) :
    (checkSessionState cfg s tk).endFires =
      (detectRaceTransitions cfg s
        (determineStatus cfg tk.status tk.timeMs) tk.timeMs tk.now).endFires := by
  unfold checkSessionState
  exact updateStatus_endFires _ _

theorem detect_endFires_of_inRace (cfg : MonitorConfig) (s : MonitorState)
    (ns : SessionStatus) (t : Int) (now : ℚ) (h : s.isInRace = true) :
    (detectRaceTransitions cfg s ns t now).endFires =
      if ns = .off ∨ ns = .menu ∨ ns = .replay ∨
          (t = 0 ∧ s.lastSessionTimeMs > 0) then s.endFires + 1
      else s.endFires := by
  by_cases h2 : ns = SessionStatus.off ∨ ns = SessionStatus.menu ∨
    ns = SessionStatus.replay <;>
  by_cases h3 : t = 0 ∧ s.lastSessionTimeMs > 0 <;>
  by_cases h4 : ns = SessionStatus.liveRacing <;>
  simp [detectRaceTransitions, endRace, startRace, h, h2, h3, h4]

theorem detect_endFires_of_notInRace (cfg : MonitorConfig)
    (s : MonitorState) (ns : SessionStatus) (t : Int) (now : ℚ)
    (h : s.isInRace = false) :
    (detectRaceTransitions cfg s ns t now).endFires = s.endFires := by
  by_cases h4 : ns = SessionStatus.liveRacing <;>
  by_cases h5 : t > cfg.minSessionTimeMs <;>
  cases hsince : s.sessionTimePositiveSince <;>
  simp [detectRaceTransitions, endRace, startRace, h, h4, h5, hsince] <;>
  split_ifs <;>
  simp [startRace, h]

theorem checkState_endFires_iff (cfg : MonitorConfig) (s : MonitorState)
    (tk : TickInfo) (h : s.isInRace = true) :
    (checkSessionState cfg s tk).endFires = s.endFires + 1 ↔
      (determineStatus cfg tk.status tk.timeMs = .off ∨
       determineStatus cfg tk.status tk.timeMs = .menu ∨
       determineStatus cfg tk.status tk.timeMs = .replay ∨
       (tk.timeMs = 0 ∧ s.lastSessionTimeMs > 0)) := by
  rw [checkState_endFires_eq, detect_endFires_of_inRace cfg s _ _ _ h]
  split_ifs with hc
  · simp [hc]
  · simp [hc]

theorem checkState_endFires_cases (cfg : MonitorConfig) (s : MonitorState)
    (tk : TickInfo) :
    (checkSessionState cfg s tk).endFires = s.endFires ∨
      (checkSessionState cfg s tk).endFires = s.endFires + 1 := by
  rw [checkState_endFires_eq]
  cases h : s.isInRace
  · rw [detect_endFires_of_notInRace cfg s _ _ _ h]
    exact Or.inl rfl
  · rw [detect_endFires_of_inRace cfg s _ _ _ h]
    split_ifs
    · exact Or.inr rfl
    · exact Or.inl rfl

/-- C4: while `isInRace`, a tick fires race-ended exactly when its
classification is Off, Menu or Replay, or its session time is exactly 0
while the previous tick's was positive; in particular a transition to
LivePaused or LiveWaiting with a nonzero session time (or no positive
previous time) does not fire race-ended. -/
theorem claim_C4 (cfg : MonitorConfig) (s : MonitorState) (tk : TickInfo)
    (h : s.isInRace = true) :
    ((checkSessionState cfg s tk).endFires = s.endFires + 1 ↔
      (determineStatus cfg tk.status tk.timeMs = .off ∨
       determineStatus cfg tk.status tk.timeMs = .menu ∨
       determineStatus cfg tk.status tk.timeMs = .replay ∨
       (tk.timeMs = 0 ∧ s.lastSessionTimeMs > 0))) ∧
    ((determineStatus cfg tk.status tk.timeMs = .livePaused ∨
      determineStatus cfg tk.status tk.timeMs = .liveWaiting) →
      ¬(tk.timeMs = 0 ∧ s.lastSessionTimeMs > 0) →
      (checkSessionState cfg s tk).endFires = s.endFires) := by
  refine ⟨checkState_endFires_iff cfg s tk h, fun hp hz => ?_⟩
  rw [checkState_endFires_eq, detect_endFires_of_inRace cfg s _ _ _ h]
  rw [if_neg]
  rintro (h1 | h1 | h1 | h1)
  · rcases hp with hp | hp <;> rw [hp] at h1 <;> exact absurd h1 (by simp)
  · rcases hp with hp | hp <;> rw [hp] at h1 <;> exact absurd h1 (by simp)
  · rcases hp with hp | hp <;> rw [hp] at h1 <;> exact absurd h1 (by simp)
  · exact hz h1

theorem claim_C4_witness :
    (checkSessionState MonitorConfig.default
        { MonitorState.initial with isInRace := true, lastSessionTimeMs := 500 }
        ⟨"Off", 400, 0⟩).endFires =
      ({ MonitorState.initial with isInRace := true, lastSessionTimeMs := 500 } :
        MonitorState).endFires + 1 ∧
    (checkSessionState MonitorConfig.default
        { MonitorState.initial with isInRace := true, lastSessionTimeMs := 500 }
        ⟨"Pause", 400, 0⟩).endFires =
      ({ MonitorState.initial with isInRace := true, lastSessionTimeMs := 500 } :
        MonitorState).endFires :=
  ⟨((claim_C4 MonitorConfig.default _ _ rfl).1).mpr (by decide),
   ((claim_C4 MonitorConfig.default _ _ rfl).2) (by decide) (by decide)⟩

/-- C10: the classification function never returns the Menu state, so
the Menu arm of the race-end condition is unreachable: while `isInRace`,
a race-ended fire is due either to an Off or Replay classification or to
the session-time reset to exactly 0. -/
theorem claim_C10 (cfg : MonitorConfig) (str : String) (t : Int)
    (s : MonitorState) (tk : TickInfo) (h : s.isInRace = true)
    (hfire : (checkSessionState cfg s tk).endFires = s.endFires + 1) :
    determineStatus cfg str t ≠ .menu ∧
    (determineStatus cfg tk.status tk.timeMs = .off ∨
     determineStatus cfg tk.status tk.timeMs = .replay ∨
     (tk.timeMs = 0 ∧ s.lastSessionTimeMs > 0)) := by
  refine ⟨determineStatus_ne_menu cfg str t, ?_⟩
  rcases (checkState_endFires_iff cfg s tk h).mp hfire with h1 | h1 | h1 | h1
  · exact Or.inl h1
  · exact absurd h1 (determineStatus_ne_menu cfg tk.status tk.timeMs)
  · exact Or.inr (Or.inl h1)
  · exact Or.inr (Or.inr h1)

theorem claim_C10_witness :
    determineStatus MonitorConfig.default "Menu" 0 ≠ .menu ∧
    (determineStatus MonitorConfig.default "Off" 400 = .off ∨
     determineStatus MonitorConfig.default "Off" 400 = .replay ∨
     ((400 : Int) = 0 ∧
       ({ MonitorState.initial with isInRace := true, lastSessionTimeMs := 500 } :
         MonitorState).lastSessionTimeMs > 0)) :=
  claim_C10 MonitorConfig.default "Menu" 0
    { MonitorState.initial with isInRace := true, lastSessionTimeMs := 500 }
    ⟨"Off", 400, 0⟩ rfl (by decide)

/-! ### Race-start debounce (C3) -/

theorem determineStatus_live_racing (cfg : MonitorConfig) (t : Int)
    (ht : cfg.minSessionTimeMs < t) :
    determineStatus cfg "Live" t = .liveRacing := by
  simp [determineStatus, ht]

/-- A racing tick (`Live`, time above the threshold) while already in a
race changes neither flag, counter nor debounce timestamp. -/
theorem step_racing_inRace (cfg : MonitorConfig) (s : MonitorState)
    (tk : TickInfo) (h : s.isInRace = true)
    (hmin : 0 ≤ cfg.minSessionTimeMs)
    (hst : tk.status = "Live") (ht : cfg.minSessionTimeMs < tk.timeMs) :
    (checkSessionState cfg s tk).isInRace = true ∧
    (checkSessionState cfg s tk).startFires = s.startFires ∧
    (checkSessionState cfg s tk).endFires = s.endFires := by
  have hns : determineStatus cfg tk.status tk.timeMs = .liveRacing := by
    rw [hst]; exact determineStatus_live_racing cfg tk.timeMs ht
  have ht0 : ¬(tk.timeMs = 0 ∧ s.lastSessionTimeMs > 0) := by
    rintro ⟨h0, -⟩; omega
  simp only [checkSessionState, detectRaceTransitions, updateStatus,
    endRace, startRace, hns, h]
  split_ifs <;> simp_all

/-- A racing tick while not in a race, with no debounce timestamp yet:
the timestamp is recorded and nothing fires. -/
theorem step_racing_sinceNone (cfg : MonitorConfig) (s : MonitorState)
    (tk : TickInfo) (h : s.isInRace = false)
    (hsince : s.sessionTimePositiveSince = none)
    (hst : tk.status = "Live") (ht : cfg.minSessionTimeMs < tk.timeMs) :
    (checkSessionState cfg s tk).isInRace = false ∧
    (checkSessionState cfg s tk).startFires = s.startFires ∧
    (checkSessionState cfg s tk).endFires = s.endFires ∧
    (checkSessionState cfg s tk).sessionTimePositiveSince = some tk.now := by
  have hns : determineStatus cfg tk.status tk.timeMs = .liveRacing := by
    rw [hst]; exact determineStatus_live_racing cfg tk.timeMs ht
  simp only [checkSessionState, detectRaceTransitions, updateStatus,
    endRace, startRace, hns, h, hsince]
  split_ifs <;> simp_all

/-- A racing tick while not in a race, debounce timestamp present but
the confirmation window not yet elapsed: nothing changes. -/
theorem step_racing_sinceLt (cfg : MonitorConfig) (s : MonitorState)
    (tk : TickInfo) (τ : ℚ) (h : s.isInRace = false)
    (hsince : s.sessionTimePositiveSince = some τ)
    (hlt : tk.now - τ < cfg.timeCheckDuration)
    (hst : tk.status = "Live") (ht : cfg.minSessionTimeMs < tk.timeMs) :
    (checkSessionState cfg s tk).isInRace = false ∧
    (checkSessionState cfg s tk).startFires = s.startFires ∧
    (checkSessionState cfg s tk).endFires = s.endFires ∧
    (checkSessionState cfg s tk).sessionTimePositiveSince = some τ := by
  have hns : determineStatus cfg tk.status tk.timeMs = .liveRacing := by
    rw [hst]; exact determineStatus_live_racing cfg tk.timeMs ht
  have hnge : ¬(cfg.timeCheckDuration ≤ tk.now - τ) := not_le.mpr hlt
  simp only [checkSessionState, detectRaceTransitions, updateStatus,
    endRace, startRace, hns, h, hsince]
  split_ifs <;> simp_all

/-- A racing tick while not in a race whose wall-clock gap since the
debounce timestamp reaches the confirmation window: race-started fires
and `isInRace` is set. -/
theorem step_racing_sinceGe (cfg : MonitorConfig) (s : MonitorState)
    (tk : TickInfo) (τ : ℚ) (h : s.isInRace = false)
    (hsince : s.sessionTimePositiveSince = some τ)
    (hge : cfg.timeCheckDuration ≤ tk.now - τ)
    (hst : tk.status = "Live") (ht : cfg.minSessionTimeMs < tk.timeMs) :
    (checkSessionState cfg s tk).isInRace = true ∧
    (checkSessionState cfg s tk).startFires = s.startFires + 1 ∧
    (checkSessionState cfg s tk).endFires = s.endFires := by
  have hns : determineStatus cfg tk.status tk.timeMs = .liveRacing := by
    rw [hst]; exact determineStatus_live_racing cfg tk.timeMs ht
  simp only [checkSessionState, detectRaceTransitions, updateStatus,
    endRace, startRace, hns, h, hsince]
  split_ifs <;> simp_all

/-- C3 part 2 helper: any tick whose session time is at or below the
threshold resets the debounce timestamp. -/
theorem step_reset_since (cfg : MonitorConfig) (s : MonitorState)
    (tk : TickInfo) (ht : tk.timeMs ≤ cfg.minSessionTimeMs) :
    (checkSessionState cfg s tk).sessionTimePositiveSince = none := by
  have hns : determineStatus cfg tk.status tk.timeMs ≠ .liveRacing := by
    unfold determineStatus
    split_ifs <;> simp <;> omega
  simp only [checkSessionState, detectRaceTransitions, updateStatus,
    endRace, startRace]
  split_ifs <;> simp_all

/-- Fold: racing ticks keep an in-progress race and fire nothing. -/
theorem run_racing_inRace (cfg : MonitorConfig)
    (hmin : 0 ≤ cfg.minSessionTimeMs) (ticks : List TickInfo)
    (hall : ∀ tk ∈ ticks, tk.status = "Live" ∧
      cfg.minSessionTimeMs < tk.timeMs) :
    ∀ s : MonitorState, s.isInRace = true →
      (runMonitor cfg s ticks).isInRace = true ∧
      (runMonitor cfg s ticks).startFires = s.startFires ∧
      (runMonitor cfg s ticks).endFires = s.endFires := by
  induction ticks with
  | nil => exact fun s h => ⟨h, rfl, rfl⟩
  | cons tk rest ih =>
    intro s h
    obtain ⟨hst, ht⟩ := hall tk (List.mem_cons_self tk rest)
    obtain ⟨h1, h2, h3⟩ := step_racing_inRace cfg s tk h hmin hst ht
    obtain ⟨g1, g2, g3⟩ :=
      ih (fun t htm => hall t (List.mem_cons_of_mem tk htm))
        (checkSessionState cfg s tk) h1
    refine ⟨g1, ?_, ?_⟩
    · show (runMonitor cfg (checkSessionState cfg s tk) rest).startFires =
        s.startFires
      rw [g2, h2]
    · show (runMonitor cfg (checkSessionState cfg s tk) rest).endFires =
        s.endFires
      rw [g3, h3]

/-- Fold: racing ticks before the window elapses leave the debounce
timestamp in place and fire nothing. -/
theorem run_racing_preWindow (cfg : MonitorConfig) (τ : ℚ)
    (ticks : List TickInfo)
    (hall : ∀ tk ∈ ticks, tk.status = "Live" ∧
      cfg.minSessionTimeMs < tk.timeMs ∧
      tk.now - τ < cfg.timeCheckDuration) :
    ∀ s : MonitorState, s.isInRace = false →
      s.sessionTimePositiveSince = some τ →
      (runMonitor cfg s ticks).isInRace = false ∧
      (runMonitor cfg s ticks).startFires = s.startFires ∧
      (runMonitor cfg s ticks).endFires = s.endFires ∧
      (runMonitor cfg s ticks).sessionTimePositiveSince = some τ := by
  induction ticks with
  | nil => exact fun s h hs => ⟨h, rfl, rfl, hs⟩
  | cons tk rest ih =>
    intro s h hs
    obtain ⟨hst, ht, hlt⟩ := hall tk (List.mem_cons_self tk rest)
    obtain ⟨h1, h2, h3, h4⟩ := step_racing_sinceLt cfg s tk τ h hs hlt hst ht
    obtain ⟨g1, g2, g3, g4⟩ :=
      ih (fun t htm => hall t (List.mem_cons_of_mem tk htm))
        (checkSessionState cfg s tk) h1 h4
    refine ⟨g1, ?_, ?_, g4⟩
    · show (runMonitor cfg (checkSessionState cfg s tk) rest).startFires =
        s.startFires
      rw [g2, h2]
    · show (runMonitor cfg (checkSessionState cfg s tk) rest).endFires =
        s.endFires
      rw [g3, h3]

theorem dropWhile_head_false {α : Type} (p : α → Bool) (l : List α)
    (x : α) (xs : List α) (h : l.dropWhile p = x :: xs) : p x = false := by
  induction l with
  | nil => simp [List.dropWhile] at h
  | cons a as ih =>
    rw [List.dropWhile] at h
    by_cases hp : p a
    · rw [hp] at h; exact ih h
    · rw [Bool.not_eq_true] at hp
      rw [hp] at h
      cases h
      exact hp

theorem determineStatus_racing_inv (cfg : MonitorConfig) (str : String)
    (t : Int) (h : determineStatus cfg str t = .liveRacing) :
    str = "Live" ∧ cfg.minSessionTimeMs < t := by
  unfold determineStatus at h
  split_ifs at h <;> simp_all

/-- Within less than one confirmation window of wall-clock time after a
debounce reset, no tick — of any status — can fire race-started. -/
theorem step_no_fire_bounded (cfg : MonitorConfig) (s : MonitorState)
    (tk : TickInfo) (T : ℚ) (h : s.isInRace = false)
    (hsince : s.sessionTimePositiveSince = none ∨
      ∃ τ, s.sessionTimePositiveSince = some τ ∧ T ≤ τ)
    (hT : T ≤ tk.now) (hlt : tk.now - T < cfg.timeCheckDuration) :
    (checkSessionState cfg s tk).isInRace = false ∧
    (checkSessionState cfg s tk).startFires = s.startFires ∧
    ((checkSessionState cfg s tk).sessionTimePositiveSince = none ∨
      ∃ τ, (checkSessionState cfg s tk).sessionTimePositiveSince = some τ ∧
        T ≤ τ) := by
  by_cases hns : determineStatus cfg tk.status tk.timeMs =
    SessionStatus.liveRacing
  · obtain ⟨hst, ht⟩ := determineStatus_racing_inv cfg tk.status tk.timeMs hns
    rcases hsince with hs0 | ⟨τ, hsτ, hTτ⟩
    · obtain ⟨a, b, _, d⟩ := step_racing_sinceNone cfg s tk h hs0 hst ht
      exact ⟨a, b, Or.inr ⟨tk.now, d, hT⟩⟩
    · have hτlt : tk.now - τ < cfg.timeCheckDuration := by linarith
      obtain ⟨a, b, _, d⟩ := step_racing_sinceLt cfg s tk τ h hsτ hτlt hst ht
      exact ⟨a, b, Or.inr ⟨τ, d, hTτ⟩⟩
  · simp only [checkSessionState, detectRaceTransitions, updateStatus,
      endRace, startRace, h, hns, Bool.false_eq_true, false_and, and_false,
      if_false, ite_false, not_false_iff, ne_eq, ite_true, if_true]
    split_ifs <;> simp_all

/-- Fold: starting from a reset debounce state out of a race, any tick
sequence confined to less than one confirmation window after `T` fires
no race-started. -/
theorem run_no_fire_bounded (cfg : MonitorConfig) (T : ℚ)
    (ticks : List TickInfo)
    (hall : ∀ tk ∈ ticks, T ≤ tk.now ∧
      tk.now - T < cfg.timeCheckDuration) :
    ∀ s : MonitorState, s.isInRace = false →
      (s.sessionTimePositiveSince = none ∨
        ∃ τ, s.sessionTimePositiveSince = some τ ∧ T ≤ τ) →
      (runMonitor cfg s ticks).startFires = s.startFires := by
  induction ticks with
  | nil => intro s _ _; rfl
  | cons tk rest ih =>
    intro s h hs
    obtain ⟨hT, hlt⟩ := hall tk (List.mem_cons_self tk rest)
    obtain ⟨h1, h2, h3⟩ := step_no_fire_bounded cfg s tk T h hs hT hlt
    have hrec := ih (fun t ht => hall t (List.mem_cons_of_mem tk ht))
      (checkSessionState cfg s tk) h1 h3
    show (runMonitor cfg (checkSessionState cfg s tk) rest).startFires =
      s.startFires
    rw [hrec, h2]

/-- The uninterrupted-window half of the debounce property. -/
theorem run_uninterrupted_start (cfg : MonitorConfig)
    (hmin : 0 ≤ cfg.minSessionTimeMs) (t0 : TickInfo)
    (rest : List TickInfo)
    (hall : ∀ tk ∈ t0 :: rest, tk.status = "Live" ∧
      cfg.minSessionTimeMs < tk.timeMs)
    (hwin : ∃ tk ∈ rest, cfg.timeCheckDuration ≤ tk.now - t0.now) :
    (runMonitor cfg MonitorState.initial (t0 :: rest)).startFires = 1 ∧
    (runMonitor cfg MonitorState.initial (t0 :: rest)).isInRace = true ∧
    (runMonitor cfg MonitorState.initial (t0 :: rest)).endFires = 0 := by
  obtain ⟨hst0, ht0⟩ := hall t0 (List.mem_cons_self t0 rest)
  obtain ⟨a1, a2, a3, a4⟩ :=
    step_racing_sinceNone cfg MonitorState.initial t0 rfl rfl hst0 ht0
  have hsplit := List.takeWhile_append_dropWhile
    (fun tk => decide (tk.now - t0.now < cfg.timeCheckDuration)) rest
  obtain ⟨x, xs, hx⟩ : ∃ x xs,
      rest.dropWhile
        (fun tk => decide (tk.now - t0.now < cfg.timeCheckDuration)) =
        x :: xs := by
    cases hcase : rest.dropWhile
      (fun tk => decide (tk.now - t0.now < cfg.timeCheckDuration)) with
    | nil =>
      exfalso
      rw [List.dropWhile_eq_nil_iff] at hcase
      obtain ⟨tk, htk, hd⟩ := hwin
      have := hcase tk htk
      rw [decide_eq_true_iff] at this
      linarith
    | cons x xs => exact ⟨x, xs, rfl⟩
  have hpre : ∀ tk ∈ rest.takeWhile
      (fun tk => decide (tk.now - t0.now < cfg.timeCheckDuration)),
      tk.status = "Live" ∧ cfg.minSessionTimeMs < tk.timeMs ∧
        tk.now - t0.now < cfg.timeCheckDuration := by
    intro tk htk
    have hmem : tk ∈ rest := (List.takeWhile_sublist _).mem htk
    obtain ⟨hA, hB⟩ := hall tk (List.mem_cons_of_mem t0 hmem)
    have hpB := List.mem_takeWhile_imp htk
    rw [decide_eq_true_iff] at hpB
    exact ⟨hA, hB, hpB⟩
  obtain ⟨b1, b2, b3, b4⟩ := run_racing_preWindow cfg t0.now
    (rest.takeWhile
      (fun tk => decide (tk.now - t0.now < cfg.timeCheckDuration)))
    hpre (checkSessionState cfg MonitorState.initial t0) a1 a4
  have hxmem : x ∈ rest := by
    have : x ∈ rest.dropWhile
        (fun tk => decide (tk.now - t0.now < cfg.timeCheckDuration)) := by
      rw [hx]; exact List.mem_cons_self x xs
    exact (List.dropWhile_sublist _).mem this
  obtain ⟨hxst, hxt⟩ := hall x (List.mem_cons_of_mem t0 hxmem)
  have hxge : cfg.timeCheckDuration ≤ x.now - t0.now := by
    have hfalse := dropWhile_head_false _ rest x xs hx
    rw [decide_eq_false_iff_not] at hfalse
    linarith [not_lt.mp hfalse]
  obtain ⟨c1, c2, c3⟩ := step_racing_sinceGe cfg _ x t0.now b1 b4 hxge hxst hxt
  have hxs : ∀ tk ∈ xs, tk.status = "Live" ∧
      cfg.minSessionTimeMs < tk.timeMs := by
    intro tk htk
    have : tk ∈ rest := by
      have hmem2 : tk ∈ rest.dropWhile
          (fun tk => decide (tk.now - t0.now < cfg.timeCheckDuration)) := by
        rw [hx]; exact List.mem_cons_of_mem x htk
      exact (List.dropWhile_sublist _).mem hmem2
    exact hall tk (List.mem_cons_of_mem t0 this)
  obtain ⟨d1, d2, d3⟩ := run_racing_inRace cfg hmin xs hxs _ c1
  have hdecomp : runMonitor cfg MonitorState.initial (t0 :: rest) =
      runMonitor cfg
        (checkSessionState cfg
          (runMonitor cfg (checkSessionState cfg MonitorState.initial t0)
            (rest.takeWhile
              (fun tk => decide (tk.now - t0.now < cfg.timeCheckDuration))))
          x) xs := by
    show runMonitor cfg (checkSessionState cfg MonitorState.initial t0)
      rest = _
    conv_lhs => rw [← hsplit]
    rw [runMonitor, List.foldl_append, hx, List.foldl_cons]
    rfl
  rw [hdecomp]
  refine ⟨?_, d1, ?_⟩
  · rw [d2, c2, b2, a2]
    rfl
  · rw [d3, c3, b3, a3]
    rfl

/-- C3: starting out of a race, a tick sequence that stays classified
LiveRacing (status `Live`, session time above the threshold) and spans
at least the confirmation window fires race-started exactly once and
sets `isInRace`; any tick whose session time falls back to or below the
threshold resets the debounce timestamp; and from a reset state no
race-started can fire among ticks confined to less than one confirmation
window of wall-clock time. -/
theorem claim_C3 (cfg : MonitorConfig) (hmin : 0 ≤ cfg.minSessionTimeMs)
    (t0 : TickInfo) (rest : List TickInfo)
    (hall : ∀ tk ∈ t0 :: rest, tk.status = "Live" ∧
      cfg.minSessionTimeMs < tk.timeMs)
    (hwin : ∃ tk ∈ rest, cfg.timeCheckDuration ≤ tk.now - t0.now) :
    ((runMonitor cfg MonitorState.initial (t0 :: rest)).startFires = 1 ∧
     (runMonitor cfg MonitorState.initial (t0 :: rest)).isInRace = true) ∧
    (∀ (s : MonitorState) (tk : TickInfo),
      tk.timeMs ≤ cfg.minSessionTimeMs →
      (checkSessionState cfg s tk).sessionTimePositiveSince = none) ∧
    (∀ (s : MonitorState) (ticks : List TickInfo) (T : ℚ),
      s.isInRace = false → s.sessionTimePositiveSince = none →
      (∀ tk ∈ ticks, T ≤ tk.now ∧ tk.now - T < cfg.timeCheckDuration) →
      (runMonitor cfg s ticks).startFires = s.startFires) := by
  obtain ⟨u1, u2, _⟩ := run_uninterrupted_start cfg hmin t0 rest hall hwin
  refine ⟨⟨u1, u2⟩, fun s tk ht => step_reset_since cfg s tk ht,
    fun s ticks T h hs hb => ?_⟩
  exact run_no_fire_bounded cfg T ticks hb s h (Or.inl hs)

theorem claim_C3_witness :
    ((runMonitor MonitorConfig.default MonitorState.initial
        [⟨"Live", 200, 0⟩, ⟨"Live", 250, 1⟩, ⟨"Live", 300, 2⟩]).startFires
      = 1 ∧
     (runMonitor MonitorConfig.default MonitorState.initial
        [⟨"Live", 200, 0⟩, ⟨"Live", 250, 1⟩, ⟨"Live", 300, 2⟩]).isInRace
      = true) ∧
    (checkSessionState MonitorConfig.default MonitorState.initial
        ⟨"Live", 50, 5⟩).sessionTimePositiveSince = none ∧
    (runMonitor MonitorConfig.default MonitorState.initial
        [⟨"Live", 200, 10⟩, ⟨"Live", 250, 11⟩]).startFires =
      MonitorState.initial.startFires := by
  obtain ⟨w1, w2, w3⟩ := claim_C3 MonitorConfig.default (by decide)
    ⟨"Live", 200, 0⟩ [⟨"Live", 250, 1⟩, ⟨"Live", 300, 2⟩]
    (by intro tk htk; fin_cases htk <;> exact ⟨rfl, by decide⟩)
    ⟨⟨"Live", 300, 2⟩, by simp, by norm_num [MonitorConfig.default]⟩
  refine ⟨w1, w2 MonitorState.initial ⟨"Live", 50, 5⟩ (by decide),
    w3 MonitorState.initial [⟨"Live", 200, 10⟩, ⟨"Live", 250, 11⟩] 10 rfl
      rfl ?_⟩
  intro tk htk
  fin_cases htk <;> constructor <;> norm_num [MonitorConfig.default]

/-! ### Curve detector invariants (C9) -/

theorem registerCurve_minDuration (cd : CurveDetector) (ts : Option String) :
    (cd.registerCurve ts).minDuration = cd.minDuration := rfl

theorem registerCurve_totalCurves (cd : CurveDetector) (ts : Option String) :
    (cd.registerCurve ts).totalCurves = cd.totalCurves + 1 := rfl

theorem registerCurve_leftCurves (cd : CurveDetector) (ts : Option String) :
    (cd.registerCurve ts).leftCurves =
      if cd.currentCurveDirection = some CurveDir.left then cd.leftCurves + 1
      else cd.leftCurves := rfl

theorem registerCurve_rightCurves (cd : CurveDetector) (ts : Option String) :
    (cd.registerCurve ts).rightCurves =
      if cd.currentCurveDirection = some CurveDir.right then cd.rightCurves + 1
      else cd.rightCurves := rfl

theorem registerCurve_curvesLog (cd : CurveDetector) (ts : Option String) :
    (cd.registerCurve ts).curvesLog = cd.curvesLog ++
      [{ curveNumber := cd.totalCurves + 1
         direction := cd.currentCurveDirection
         durationSamples := cd.curveSamples
         timestamp := ts }] := rfl

theorem registerCurve_inCurve (cd : CurveDetector) (ts : Option String) :
    (cd.registerCurve ts).inCurve = cd.inCurve := rfl

theorem registerCurve_curveSamples (cd : CurveDetector) (ts : Option String) :
    (cd.registerCurve ts).curveSamples = cd.curveSamples := rfl

theorem registerCurve_direction (cd : CurveDetector) (ts : Option String) :
    (cd.registerCurve ts).currentCurveDirection =
      cd.currentCurveDirection := rfl

set_option maxHeartbeats 3200000 in
theorem update_inv (cd : CurveDetector) (a : ℚ) (ts : Option String)
    (h1 : cd.totalCurves = cd.leftCurves + cd.rightCurves)
    (h2 : cd.totalCurves = cd.curvesLog.length)
    (h3 : ∀ e ∈ cd.curvesLog,
      (e.direction = some CurveDir.left ∨ e.direction = some CurveDir.right) ∧
      cd.minDuration ≤ e.durationSamples)
    (h4 : cd.inCurve = true → cd.currentCurveDirection ≠ none) :
    ((cd.update a ts).1.minDuration = cd.minDuration) ∧
    ((cd.update a ts).1.totalCurves =
      (cd.update a ts).1.leftCurves + (cd.update a ts).1.rightCurves) ∧
    ((cd.update a ts).1.totalCurves = (cd.update a ts).1.curvesLog.length) ∧
    (∀ e ∈ (cd.update a ts).1.curvesLog,
      (e.direction = some CurveDir.left ∨ e.direction = some CurveDir.right) ∧
      cd.minDuration ≤ e.durationSamples) ∧
    ((cd.update a ts).1.inCurve = true →
      (cd.update a ts).1.currentCurveDirection ≠ none) := by
  have hdir3 : cd.currentCurveDirection = none ∨
      cd.currentCurveDirection = some CurveDir.left ∨
      cd.currentCurveDirection = some CurveDir.right := by
    cases hc : cd.currentCurveDirection with
    | none => exact Or.inl rfl
    | some d => cases d
                · exact Or.inr (Or.inl rfl)
                · exact Or.inr (Or.inr rfl)
  rcases hdir3 with hdir | hdir | hdir <;>
  by_cases hR : a > cd.thresholdAngle <;>
  by_cases hL : a < -cd.thresholdAngle <;>
  cases hin : cd.inCurve <;>
  by_cases hfin : cd.minDuration ≤ cd.curveSamples <;>
  by_cases hcool : cd.cooldownSamples ≤ cd.cooldownCounter + 1 <;>
  simp [CurveDetector.update, hdir, hR, hL, hin, hfin, hcool,
    registerCurve_minDuration, registerCurve_totalCurves,
    registerCurve_leftCurves, registerCurve_rightCurves,
    registerCurve_curvesLog, registerCurve_inCurve,
    registerCurve_curveSamples, registerCurve_direction,
    List.forall_mem_append, List.forall_mem_singleton]
  all_goals try exact absurd hdir (h4 hin)
  all_goals repeat' apply And.intro
  all_goals first
    | omega
    | exact h3
    | (intro e he
       first
         | exact h3 e he
         | exact (h3 e he).1
         | exact (h3 e he).2
         | (rcases he with he | rfl
            · first
                | exact h3 e he
                | exact (h3 e he).1
                | exact (h3 e he).2
            · first
                | simp [hfin]
                | simp
                | simpa using hfin
                | omega))
    | simp [hfin]
    | simp_all

theorem runDetector_cons_fst (cd : CurveDetector) (a : ℚ)
    (ts : Option String) (rest : List (ℚ × Option String)) :
    (runDetector cd ((a, ts) :: rest)).1 =
      (runDetector (cd.update a ts).1 rest).1 := by
  rcases hu : cd.update a ts with ⟨cd1, r⟩
  rcases hr : runDetector cd1 rest with ⟨cd2, rs⟩
  simp [runDetector, hu, hr]

theorem runDetector_inv (samples : List (ℚ × Option String)) :
    ∀ cd : CurveDetector,
      cd.totalCurves = cd.leftCurves + cd.rightCurves →
      cd.totalCurves = cd.curvesLog.length →
      (∀ e ∈ cd.curvesLog,
        (e.direction = some CurveDir.left ∨
          e.direction = some CurveDir.right) ∧
        cd.minDuration ≤ e.durationSamples) →
      (cd.inCurve = true → cd.currentCurveDirection ≠ none) →
      (runDetector cd samples).1.minDuration = cd.minDuration ∧
      (runDetector cd samples).1.totalCurves =
        (runDetector cd samples).1.leftCurves +
        (runDetector cd samples).1.rightCurves ∧
      (runDetector cd samples).1.totalCurves =
        (runDetector cd samples).1.curvesLog.length ∧
      (∀ e ∈ (runDetector cd samples).1.curvesLog,
        (e.direction = some CurveDir.left ∨
          e.direction = some CurveDir.right) ∧
        cd.minDuration ≤ e.durationSamples) ∧
      ((runDetector cd samples).1.inCurve = true →
        (runDetector cd samples).1.currentCurveDirection ≠ none) := by
  induction samples with
  | nil => exact fun cd h1 h2 h3 h4 => ⟨rfl, h1, h2, h3, h4⟩
  | cons p rest ih =>
    intro cd h1 h2 h3 h4
    obtain ⟨i1, i2, i3, i4, i5⟩ := update_inv cd p.1 p.2 h1 h2 h3 h4
    have i4m : ∀ e ∈ (cd.update p.1 p.2).1.curvesLog,
        (e.direction = some CurveDir.left ∨
          e.direction = some CurveDir.right) ∧
        (cd.update p.1 p.2).1.minDuration ≤ e.durationSamples := by
      rw [i1]; exact i4
    obtain ⟨g1, g2, g3, g4, g5⟩ := ih (cd.update p.1 p.2).1 i2 i3 i4m i5
    have hc : (runDetector cd (p :: rest)).1 =
        (runDetector (cd.update p.1 p.2).1 rest).1 := by
      rcases p with ⟨a, ts⟩
      exact runDetector_cons_fst cd a ts rest
    rw [hc]
    refine ⟨g1.trans i1, g2, g3, ?_, g5⟩
    intro e he
    obtain ⟨hd, hb⟩ := g4 e he
    rw [i1] at hb
    exact ⟨hd, hb⟩

/-- C9: after any sequence of `update()` calls on a fresh
`CurveDetector`, `total_curves` equals `left_curves + right_curves` and
equals the length of `curves_log`; every logged curve has direction
`left` or `right` — never `None` — and lasted at least `min_duration`
samples; and `reset()` restores every counter, the state flags and the
log to empty. -/
theorem claim_C9 (samples : List (ℚ × Option String))
    (cd : CurveDetector) :
    (runDetector CurveDetector.fresh samples).1.totalCurves =
      (runDetector CurveDetector.fresh samples).1.leftCurves +
      (runDetector CurveDetector.fresh samples).1.rightCurves ∧
    (runDetector CurveDetector.fresh samples).1.totalCurves =
      (runDetector CurveDetector.fresh samples).1.curvesLog.length ∧
    (∀ e ∈ (runDetector CurveDetector.fresh samples).1.curvesLog,
      (e.direction = some CurveDir.left ∨
        e.direction = some CurveDir.right) ∧
      CurveDetector.fresh.minDuration ≤ e.durationSamples) ∧
    cd.reset.inCurve = false ∧ cd.reset.curveSamples = 0 ∧
    cd.reset.cooldownCounter = 0 ∧
    cd.reset.currentCurveDirection = none ∧ cd.reset.totalCurves = 0 ∧
    cd.reset.leftCurves = 0 ∧ cd.reset.rightCurves = 0 ∧
    cd.reset.curvesLog = [] ∧ cd.reset.history = [] := by
  obtain ⟨-, g2, g3, g4, -⟩ := runDetector_inv samples CurveDetector.fresh
    rfl rfl (by simp [CurveDetector.fresh]) (by intro h; simp_all [CurveDetector.fresh])
  exact ⟨g2, g3, g4, rfl, rfl, rfl, rfl, rfl, rfl, rfl, rfl, rfl⟩

theorem claim_C9_witness :
    (runDetector CurveDetector.fresh
      [(20, none), (20, none), (0, none), (0, none), (0, none)]).1.totalCurves =
      (runDetector CurveDetector.fresh
        [(20, none), (20, none), (0, none), (0, none), (0, none)]).1.leftCurves +
      (runDetector CurveDetector.fresh
        [(20, none), (20, none), (0, none), (0, none), (0, none)]).1.rightCurves ∧
    CurveDetector.fresh.reset.totalCurves = 0 :=
  ⟨(claim_C9 [(20, none), (20, none), (0, none), (0, none), (0, none)]
      CurveDetector.fresh).1,
   (claim_C9 [] CurveDetector.fresh).2.2.2.2.2.2.2.1⟩

/-! ### Realtime car update state effect (C7) -/

theorem dictLookup_map_replace {α : Type} (k : Nat) (v : α)
    (m : List (Nat × α)) (h : m.any (fun p => decide (p.1 = k)) = true) :
    dictLookup k (m.map (fun p => if p.1 = k then (k, v) else p)) =
      some v := by
  induction m with
  | nil => simp at h
  | cons p rest ih =>
    by_cases hp : p.1 = k
    · simp [dictLookup, hp]
    · rw [List.any_cons, decide_eq_false hp, Bool.false_or] at h
      rw [List.map_cons, if_neg hp, dictLookup, if_neg hp]
      exact ih h

theorem dictLookup_none_of_not_any {α : Type} (k : Nat)
    (m : List (Nat × α))
    (h : m.any (fun p => decide (p.1 = k)) = false) :
    dictLookup k m = none := by
  induction m with
  | nil => rfl
  | cons p rest ih =>
    rw [List.any_cons, Bool.or_eq_false_iff] at h
    rw [dictLookup, if_neg (of_decide_eq_false h.1)]
    exact ih h.2

theorem dictLookup_append_last {α : Type} (k : Nat) (v : α)
    (m : List (Nat × α)) (h : dictLookup k m = none) :
    dictLookup k (m ++ [(k, v)]) = some v := by
  induction m with
  | nil => simp [dictLookup]
  | cons p rest ih =>
    rw [dictLookup] at h
    by_cases hp : p.1 = k
    · rw [if_pos hp] at h; exact absurd h (by simp)
    · rw [if_neg hp] at h
      rw [List.cons_append, dictLookup, if_neg hp]
      exact ih h

theorem dictLookup_map_replace_other {α : Type} (k j : Nat) (v : α)
    (m : List (Nat × α)) (h : j ≠ k) :
    dictLookup j (m.map (fun p => if p.1 = k then (k, v) else p)) =
      dictLookup j m := by
  induction m with
  | nil => rfl
  | cons p rest ih =>
    by_cases hp : p.1 = k
    · have hkj : ¬ (k = j) := fun hh => h hh.symm
      have hpj : ¬ (p.1 = j) := by rw [hp]; exact hkj
      rw [List.map_cons, if_pos hp, dictLookup, if_neg hkj, dictLookup,
        if_neg hpj]
      exact ih
    · rw [List.map_cons, if_neg hp, dictLookup, dictLookup]
      by_cases hq : p.1 = j
      · rw [if_pos hq, if_pos hq]
      · rw [if_neg hq, if_neg hq]
        exact ih

theorem dictLookup_append_other {α : Type} (k j : Nat) (v : α)
    (m : List (Nat × α)) (h : j ≠ k) :
    dictLookup j (m ++ [(k, v)]) = dictLookup j m := by
  induction m with
  | nil =>
    have hkj : ¬ (k = j) := fun hh => h hh.symm
    simp [dictLookup, hkj]
  | cons p rest ih =>
    rw [List.cons_append, dictLookup, dictLookup]
    by_cases hq : p.1 = j
    · rw [if_pos hq, if_pos hq]
    · rw [if_neg hq, if_neg hq]
      exact ih

theorem dictInsert_lookup_self {α : Type} (k : Nat) (v : α)
    (m : List (Nat × α)) :
    dictLookup k (dictInsert k v m) = some v := by
  unfold dictInsert
  split_ifs with hany
  · exact dictLookup_map_replace k v m hany
  · exact dictLookup_append_last k v m
      (dictLookup_none_of_not_any k m (Bool.eq_false_iff.mpr hany))

theorem dictInsert_lookup_other {α : Type} (k j : Nat) (v : α)
    (m : List (Nat × α)) (h : j ≠ k) :
    dictLookup j (dictInsert k v m) = dictLookup j m := by
  unfold dictInsert
  split_ifs with hany
  · exact dictLookup_map_replace_other k j v m h
  · exact dictLookup_append_other k j v m h

/-- C7: processing a RealtimeCarUpdate datagram that parses to car index
`carIndex` and record `rec` fully replaces the realtime entry of that
car with `rec` — a function of the message alone, never merged with the
previous entry — and leaves every other car's realtime entry, the entry
list, the track data and the session info untouched. -/
theorem claim_C7 (st : ClientState) (data : List Nat) (carIndex : Nat)
    (rec : RTCarDict)
    (h : parseRealtimeCarUpdate data = some (carIndex, rec)) :
    dictLookup carIndex (processRealtimeCarUpdate st data).realtimeData =
      some rec ∧
    (∀ j, j ≠ carIndex →
      dictLookup j (processRealtimeCarUpdate st data).realtimeData =
        dictLookup j st.realtimeData) ∧
    (processRealtimeCarUpdate st data).entryList = st.entryList ∧
    (processRealtimeCarUpdate st data).trackData = st.trackData ∧
    (processRealtimeCarUpdate st data).sessionInfo = st.sessionInfo := by
  simp only [processRealtimeCarUpdate, h]
  exact ⟨dictInsert_lookup_self carIndex rec st.realtimeData,
    fun j hj => dictInsert_lookup_other carIndex j rec st.realtimeData hj,
    trivial, trivial, trivial⟩

theorem claim_C7_witness :
    (processRealtimeCarUpdate ⟨[], [], none, none⟩
      (List.replicate 92 0)).entryList = [] ∧
    (processRealtimeCarUpdate ⟨[], [], none, none⟩
      (List.replicate 92 0)).trackData = none ∧
    dictLookup 7 (processRealtimeCarUpdate ⟨[], [], none, none⟩
      (List.replicate 92 0)).realtimeData = none := by
  have h := claim_C7 ⟨[], [], none, none⟩ (List.replicate 92 0) 0 _ rfl
  refine ⟨h.2.2.1, h.2.2.2.1, ?_⟩
  rw [h.2.1 7 (by decide)]
  rfl

/-! ### Register command round trip (C8) -/

theorem readU8_append (pre rest : List Nat) (x : Nat) (o : Nat)
    (ho : o = pre.length) : readU8 (pre ++ x :: rest) o = some x := by
  subst ho
  unfold readU8
  rw [if_pos (by simp; try omega)]
  rw [List.getD_append_right pre _ 0 pre.length le_rfl]
  simp

theorem readStrB_append (pre s rest : List Nat) (o : Nat)
    (ho : o = pre.length) :
    readStrB (pre ++ s.length :: (s ++ rest)) o =
      some (s, o + 1 + s.length) := by
  subst ho
  unfold readStrB
  rw [readU8_append pre (s ++ rest) s.length pre.length rfl]
  dsimp only
  rw [if_pos (by simp [List.length_append, List.length_cons]; try omega)]
  congr 1
  unfold sliceBytes
  have hsh : pre ++ s.length :: (s ++ rest) = (pre ++ [s.length]) ++ (s ++ rest) := by
    simp
  rw [hsh]
  have hlen : pre.length + 1 = (pre ++ [s.length]).length := by simp
  rw [hlen, List.drop_left, List.take_left]

theorem readI32_int32LE (pre rest : List Nat) (x : Int) (o : Nat)
    (ho : o = pre.length) (hlo : -2147483648 ≤ x)
    (hhi : x < 2147483648) :
    readI32 (pre ++ (int32LEbytes x ++ rest)) o = some x := by
  subst ho
  have hx0 : (0 : Int) ≤ x % 4294967296 := Int.emod_nonneg x (by norm_num)
  have hx1 : x % 4294967296 < 4294967296 :=
    Int.emod_lt_of_pos x (by norm_num)
  have hu : (x % 4294967296).toNat < 4294967296 := by omega
  unfold readI32
  rw [if_pos (by simp [int32LEbytes]; try omega)]
  have hg : ∀ k : Nat, k < 4 →
      (pre ++ (int32LEbytes x ++ rest)).getD (pre.length + k) 0 =
        (int32LEbytes x).getD k 0 := by
    intro k hk
    rw [List.getD_append_right pre _ 0 _ (by omega)]
    rw [List.getD_append _ _ 0 _ (by simp [int32LEbytes]; omega)]
    congr 1
    omega
  have hg0 : (pre ++ (int32LEbytes x ++ rest)).getD pre.length 0 =
      (int32LEbytes x).getD 0 0 := by simpa using hg 0 (by norm_num)
  unfold leWord
  rw [hg0, hg 1 (by norm_num), hg 2 (by norm_num), hg 3 (by norm_num)]
  simp only [int32LEbytes, List.getD_cons_zero, List.getD_cons_succ]
  have hdig : (x % 4294967296).toNat % 256 +
      256 * ((x % 4294967296).toNat / 256 % 256) +
      65536 * ((x % 4294967296).toNat / 65536 % 256) +
      16777216 * ((x % 4294967296).toNat / 16777216 % 256) =
      (x % 4294967296).toNat := by omega
  rw [hdig]
  unfold i32OfWord
  split_ifs <;> simp only [Option.some.injEq] <;> omega

theorem int32LEbytes_length (x : Int) : (int32LEbytes x).length = 4 := rfl

/-- C8: encoding a Register command (tag byte 1, protocol version byte
4, length-prefixed UTF-8 display name, length-prefixed connection
password, 4-byte little-endian update interval, length-prefixed command
password) and decoding the bytes back by the same layout recovers
exactly the original display name, passwords and update interval,
whenever each string fits in its one-byte length prefix and the interval
fits in a signed 32-bit integer. -/
theorem claim_C8 (n p c : List Nat) (i : Int)
    (hn : n.length ≤ 255) (hp : p.length ≤ 255) (hc : c.length ≤ 255)
    (hlo : -2147483648 ≤ i) (hhi : i < 2147483648) :
    decodeRegisterCommand (encodeRegisterCommand n p i c) =
      some { tag := 1, protocolVersion := 4, displayName := n,
             connectionPassword := p, updateIntervalMs := i,
             commandPassword := c } := by
  have h0 : readU8 (encodeRegisterCommand n p i c) 0 = some 1 := by
    rw [show encodeRegisterCommand n p i c =
      [] ++ 1 :: ([4, n.length] ++ n ++ [p.length] ++ p ++
        int32LEbytes i ++ [c.length] ++ c) from by
      simp [encodeRegisterCommand, REGISTER_COMMAND_APPLICATION,
        BROADCASTING_PROTOCOL_VERSION]]
    exact readU8_append _ _ _ _ rfl
  have h1 : readU8 (encodeRegisterCommand n p i c) 1 = some 4 := by
    rw [show encodeRegisterCommand n p i c =
      [1] ++ 4 :: ([n.length] ++ n ++ [p.length] ++ p ++
        int32LEbytes i ++ [c.length] ++ c) from by
      simp [encodeRegisterCommand, REGISTER_COMMAND_APPLICATION,
        BROADCASTING_PROTOCOL_VERSION]]
    exact readU8_append [1] _ _ _ rfl
  have h2 : readStrB (encodeRegisterCommand n p i c) 2 =
      some (n, 2 + 1 + n.length) := by
    rw [show encodeRegisterCommand n p i c =
      [1, 4] ++ n.length :: (n ++ ([p.length] ++ p ++
        int32LEbytes i ++ [c.length] ++ c)) from by
      simp [encodeRegisterCommand, REGISTER_COMMAND_APPLICATION,
        BROADCASTING_PROTOCOL_VERSION]]
    exact readStrB_append [1, 4] n _ 2 rfl
  have h3 : readStrB (encodeRegisterCommand n p i c) (2 + 1 + n.length) =
      some (p, 2 + 1 + n.length + 1 + p.length) := by
    rw [show encodeRegisterCommand n p i c =
      ([1, 4, n.length] ++ n) ++ p.length :: (p ++
        (int32LEbytes i ++ [c.length] ++ c)) from by
      simp [encodeRegisterCommand, REGISTER_COMMAND_APPLICATION,
        BROADCASTING_PROTOCOL_VERSION]]
    exact readStrB_append ([1, 4, n.length] ++ n) p _ _
      (by simp; omega)
  have h4 : readI32 (encodeRegisterCommand n p i c)
      (2 + 1 + n.length + 1 + p.length) = some i := by
    rw [show encodeRegisterCommand n p i c =
      ([1, 4, n.length] ++ n ++ [p.length] ++ p) ++
        (int32LEbytes i ++ ([c.length] ++ c)) from by
      simp [encodeRegisterCommand, REGISTER_COMMAND_APPLICATION,
        BROADCASTING_PROTOCOL_VERSION]]
    exact readI32_int32LE _ _ i _ (by simp; omega) hlo hhi
  have h5 : readStrB (encodeRegisterCommand n p i c)
      (2 + 1 + n.length + 1 + p.length + 4) =
      some (c, 2 + 1 + n.length + 1 + p.length + 4 + 1 + c.length) := by
    rw [show encodeRegisterCommand n p i c =
      ([1, 4, n.length] ++ n ++ [p.length] ++ p ++ int32LEbytes i) ++
        c.length :: (c ++ []) from by
      simp [encodeRegisterCommand, REGISTER_COMMAND_APPLICATION,
        BROADCASTING_PROTOCOL_VERSION]]
    exact readStrB_append _ c [] _
      (by simp [int32LEbytes_length]; omega)
  simp only [decodeRegisterCommand]
  rw [h0]
  dsimp only
  rw [h1]
  dsimp only
  rw [h2]
  dsimp only
  rw [h3]
  dsimp only
  rw [h4]
  dsimp only
  rw [h5]

theorem claim_C8_witness :
    decodeRegisterCommand
        (encodeRegisterCommand [65] [97, 115, 100] 250 []) =
      some { tag := 1, protocolVersion := 4, displayName := [65],
             connectionPassword := [97, 115, 100],
             updateIntervalMs := 250, commandPassword := [] } :=
  claim_C8 [65] [97, 115, 100] [] 250 (by decide) (by decide) (by decide)
    (by decide) (by decide)

/-! ### Standings (C6) -/

theorem joinStandings_length (E : List (Nat × EntryDict))
    (R : List (Nat × RTCarDict)) :
    (joinStandings E R).length =
      ((R.map Prod.fst).filter
        (fun k => (dictLookup k E).isSome)).length := by
  induction R with
  | nil => rfl
  | cons pr rest ih =>
    cases h : dictLookup pr.1 E with
    | none =>
      simp only [joinStandings, List.filterMap_cons, h, List.map_cons,
        List.filter_cons, Option.isSome_none, Bool.false_eq_true,
        if_false, ite_false]
      exact ih
    | some entry =>
      simp only [joinStandings, List.filterMap_cons, h, List.map_cons,
        List.filter_cons, Option.isSome_some, if_true, ite_true,
        List.length_cons]
      rw [← ih]
      rfl

theorem mem_joinStandings (E : List (Nat × EntryDict))
    (R : List (Nat × RTCarDict)) (s : StandingEntry)
    (hs : s ∈ joinStandings E R) :
    ∃ pr ∈ R, ∃ entry, dictLookup pr.1 E = some entry ∧
      s = buildStanding pr.1 entry pr.2 := by
  rw [joinStandings, List.mem_filterMap] at hs
  obtain ⟨pr, hpr, hf⟩ := hs
  cases h : dictLookup pr.1 E with
  | none => rw [h] at hf; simp at hf
  | some entry =>
    rw [h] at hf
    simp only [Option.some.injEq] at hf
    exact ⟨pr, hpr, entry, h, hf.symm⟩

theorem joinStandings_pos_ne (E : List (Nat × EntryDict))
    (R : List (Nat × RTCarDict)) (hkeys : (R.map Prod.fst).Nodup)
    (hpos : ∀ a ∈ R, ∀ b ∈ R, a.1 ≠ b.1 →
      a.2.position ≠ b.2.position) :
    List.Pairwise (fun s t => s.position ≠ t.position)
      (joinStandings E R) := by
  rw [joinStandings, List.pairwise_filterMap]
  have hkp : R.Pairwise (fun a b => a.1 ≠ b.1) := List.pairwise_map.mp hkeys
  refine hkp.imp_of_mem ?_
  intro a b ha hb hne s hsa t htb
  cases hla : dictLookup a.1 E with
  | none => rw [hla] at hsa; simp at hsa
  | some ea =>
    cases hlb : dictLookup b.1 E with
    | none => rw [hlb] at htb; simp at htb
    | some eb =>
      rw [hla] at hsa
      rw [hlb] at htb
      simp only [Option.mem_def, Option.some.injEq] at hsa htb
      rw [← hsa, ← htb]
      exact hpos a ha b hb hne

theorem buildStanding_name (ci : Nat) (e : EntryDict) (rt : RTCarDict) :
    (buildStanding ci e rt).driverName = chainNameAmended e rt := by
  unfold buildStanding resolveDriverName chainNameAmended
  cases h : e.drivers.get? rt.driverIndex with
  | none => rfl
  | some d =>
    by_cases hname : pyStrip (d.firstName ++ " " ++ d.lastName) = "" <;>
      simp [hname]

/-- C6 (amended): for every state of the entry and realtime maps in
which realtime keys are distinct and race positions of distinct cars are
unique, `get_standings()` is sorted strictly ascending by race position
and has exactly one element per car index present in both maps; each
element arises from the join of the two maps at its car index, and its
driver name follows the chain first+last name → short name, with
"Unknown" only when the driver index is out of range (an all-empty
driver yields the empty string, not "Unknown"). -/
theorem claim_C6 (E : List (Nat × EntryDict)) (R : List (Nat × RTCarDict))
    (hkeys : (R.map Prod.fst).Nodup)
    (hpos : ∀ a ∈ R, ∀ b ∈ R, a.1 ≠ b.1 →
      a.2.position ≠ b.2.position) :
    List.Pairwise (fun s t => s.position < t.position)
      (get_standings E R) ∧
    (get_standings E R).length =
      ((R.map Prod.fst).filter
        (fun k => (dictLookup k E).isSome)).length ∧
    (∀ s ∈ get_standings E R, ∃ pr ∈ R, ∃ entry,
      dictLookup pr.1 E = some entry ∧
      s = buildStanding pr.1 entry pr.2) ∧
    (∀ ci entry rt,
      (buildStanding ci entry rt).driverName = chainNameAmended entry rt) := by
  have hperm := List.mergeSort_perm (joinStandings E R)
    (fun a b => a.position ≤ b.position)
  have hsorted := @List.sorted_mergeSort StandingEntry
    (fun a b => decide (a.position ≤ b.position))
    (fun a b c h1 h2 => by
      simp only [decide_eq_true_iff] at h1 h2 ⊢; omega)
    (fun a b => by
      simp only [Bool.or_eq_true, decide_eq_true_iff]; omega)
    (joinStandings E R)
  have hne : List.Pairwise (fun s t => s.position ≠ t.position)
      (get_standings E R) :=
    (hperm.pairwise_iff (fun h => h.symm)).mpr
      (joinStandings_pos_ne E R hkeys hpos)
  refine ⟨?_, ?_, ?_, buildStanding_name⟩
  · have hle : List.Pairwise
        (fun (a b : StandingEntry) =>
          decide (a.position ≤ b.position) = true) (get_standings E R) :=
      hsorted
    exact (hle.and hne).imp
      (fun h => lt_of_le_of_ne (of_decide_eq_true h.1) h.2)
  · unfold get_standings
    rw [hperm.length_eq]
    exact joinStandings_length E R
  · intro s hs
    unfold get_standings at hs
    exact mem_joinStandings E R s (hperm.mem_iff.mp hs)

theorem claim_C6_witness :
    List.Pairwise (fun s t => s.position < t.position)
      (get_standings [(0, entryEmptyNames)] [(0, rtCarZero)]) ∧
    (get_standings [(0, entryEmptyNames)] [(0, rtCarZero)]).length =
      ((([(0, rtCarZero)] : List (Nat × RTCarDict)).map Prod.fst).filter
        (fun k => (dictLookup k [(0, entryEmptyNames)]).isSome)).length :=
  have h := claim_C6 [(0, entryEmptyNames)] [(0, rtCarZero)]
    (by decide) (by decide)
  ⟨h.1, h.2.1⟩

/-- C6 (counterexample): in a state whose single joined car has a
current driver with empty first, last and short names, `get_standings`
reports the empty string as the driver name, while the claimed fallback
chain — ending in "Unknown" — would report "Unknown". -/
theorem claim_C6_counterexample :
    (get_standings [(0, entryEmptyNames)] [(0, rtCarZero)]).map
      (fun s => s.driverName) = [""] ∧
    chainNameSpec entryEmptyNames rtCarZero = "Unknown" ∧
    ("" : String) ≠ "Unknown" := by
  refine ⟨?_, ?_, by decide⟩
  · unfold get_standings
    rw [show joinStandings [(0, entryEmptyNames)] [(0, rtCarZero)] =
      [buildStanding 0 entryEmptyNames rtCarZero] from rfl,
      List.mergeSort]
    decide
  · decide

end ACRecorder
